import Mathlib

/-!
# Verification of `setup_map_client_from_provenance.py`

A shallow embedding of the provenance-driven MAP Client setup script.
The script is a linear orchestrator: it validates a setup directory and a
provenance record, checks host compatibility, locates git, and then drives
external tools (venv creation, pip install, git clone/switch, activation),
returning one of eleven fixed exit codes.

The embedding models:
* parsed JSON values (`PyVal`) with Python's dict/`in`/subscript semantics,
* `packaging.version.Version` restricted to numeric release segments
  (the only version strings the script manipulates), with packaging's
  trailing-zero-insensitive release equality,
* the host and external collaborators as a `World`: host platform and
  interpreter version, a static view of the filesystem, the result of the
  (read-only) `_which("git")` search, and a deterministic subprocess oracle
  `run : argv → cwd → ProcResult`. The filesystem view is sound as a
  constant because the script never re-examines a path after creating it.
* execution as a writer/except monad `Eff`: a trace of externally visible
  effects (subprocess invocations, file writes, directory creation, printed
  messages) together with either a value, an early `exit` with a return
  code, or an uncaught Python exception (`PyExn`).

Function names follow the source (`_is_map_client_provenance_file`,
`_platform_match`, `_package_requirements`, `main`, ...).
-/

/-- Python exceptions the script can raise (uncaught: the process then dies
with a traceback instead of returning one of the enumerated codes). -/
inductive PyExn where
  | keyError : String → PyExn
  | typeError : PyExn
  | attributeError : PyExn
  | jsonDecodeError : PyExn
  | invalidVersion : String → PyExn
deriving DecidableEq

/-- A parsed JSON value, restricted to the shapes the script manipulates:
strings and string-keyed objects (insertion-ordered, keys unique). -/
inductive PyVal where
  | vStr : String → PyVal
  | vDict : List (String × PyVal) → PyVal

/-- First-match association-list lookup (Python dict subscript, keys unique). -/
def alist_lookup : List (String × PyVal) → String → Option PyVal
  | [], _ => none
  | (k, v) :: rest, key => if k == key then some v else alist_lookup rest key

/-- Python `d[k]`: `KeyError` on a missing key, `TypeError` on a non-dict. -/
def PyVal.getItem : PyVal → String → Except PyExn PyVal
  | .vDict l, k =>
    match alist_lookup l k with
    | some v => Except.ok v
    | none => Except.error (PyExn.keyError k)
  | .vStr _, _ => Except.error PyExn.typeError

/-- Contiguous-sublist test (Python's substring `in` on strings). -/
def listHasInfix (k : List Char) : List Char → Bool
  | [] => k.isEmpty
  | a :: rest => k.isPrefixOf (a :: rest) || listHasInfix k rest

/-- Python `k in d`: key membership on a dict, substring test on a string. -/
def PyVal.contains : PyVal → String → Except PyExn Bool
  | .vDict l, k => Except.ok (alist_lookup l k).isSome
  | .vStr s, k => Except.ok (listHasInfix k.toList s.toList)

/-- Python `v == s` for a string literal `s` (never raises). -/
def PyVal.eqStr : PyVal → String → Bool
  | .vStr s, t => s == t
  | _, _ => false

/-- Python `str()` as used in f-string interpolation. Every value the
script interpolates is a string; the dict rendering is abbreviated. -/
def pyStr : PyVal → String
  | .vStr s => s
  | .vDict _ => "<dict>"

/-- Coerce to a string or raise `TypeError` (e.g. `Version(non_str)`,
a non-string subprocess argument). -/
def PyVal.asStr : PyVal → Except PyExn String
  | .vStr s => Except.ok s
  | _ => Except.error PyExn.typeError

/-- Python `d.items()`: `AttributeError` on a non-dict. -/
def PyVal.items : PyVal → Except PyExn (List (String × PyVal))
  | .vDict l => Except.ok l
  | .vStr _ => Except.error PyExn.attributeError

/-! ## `packaging.version.Version`, restricted to release segments -/

/-- Split a character list on `.` (the list-level `String.splitOn "."`,
in a structurally recursive, kernel-reducible form). -/
def splitDots : List Char → List (List Char)
  | [] => [[]]
  | c :: rest =>
    if c == '.' then
      [] :: splitDots rest
    else
      match splitDots rest with
      | g :: gs => (c :: g) :: gs
      | [] => [[c]]

/-- `String.toNat?` on one chunk: all-digit, non-empty decimal numeral. -/
def digitsToNat? (l : List Char) : Option Nat :=
  if l ≠ [] ∧ l.all Char.isDigit then
    some (l.foldl (fun acc c => acc * 10 + (c.toNat - 48)) 0)
  else
    none

/-- Parse a dotted numeric version string into its release segments
(`none` on anything that is not dot-separated decimal numerals). -/
def parseRelease (s : String) : Option (List Nat) :=
  let parts := (splitDots s.toList).map digitsToNat?
  if parts.all Option.isSome then some (parts.map (fun o => o.getD 0)) else none

/-- packaging compares releases with trailing zeros stripped
(`Version "1.0" == Version "1"`). -/
def canonRelease (l : List Nat) : List Nat :=
  (List.dropWhile (fun n => n == 0) l.reverse).reverse

/-- `packaging` semantic-version equality on release segments. -/
def versionEq (a b : List Nat) : Bool :=
  canonRelease a == canonRelease b

/-- `Version(s)`: parse or raise `InvalidVersion`. -/
def pyVersion (s : String) : Except PyExn (List Nat) :=
  match parseRelease s with
  | some r => Except.ok r
  | none => Except.error (PyExn.invalidVersion s)

/-! ## Effects, outcomes and the execution monad -/

/-- One externally visible action of the script, in order of occurrence. -/
inductive Effect where
  /-- `subprocess.run(argv, cwd=...)` -/
  | run : List String → Option String → Effect
  /-- `open(path, "w").write(text)` -/
  | write : String → String → Effect
  /-- `os.makedirs(path, exist_ok=True)` -/
  | makedirs : String → Effect
  /-- `print(text)` -/
  | msg : String → Effect
deriving DecidableEq

/-- How a run of `main` stops early: a `return <code>` or an uncaught
exception. -/
inductive Outcome where
  | exn : PyExn → Outcome
  | exit : Nat → Outcome
deriving DecidableEq

/-- Writer (effect trace) + exception monad for the script's body. -/
def Eff (α : Type) : Type := List Effect × Except Outcome α

/-- Sequencing in `Eff`: concatenate traces, short-circuit on an error. -/
def effBind {α β : Type} (x : Eff α) (f : α → Eff β) : Eff β :=
  match x with
  | (tr, Except.error e) => (tr, Except.error e)
  | (tr, Except.ok a) => (tr ++ (f a).1, (f a).2)

/-- The unit of `Eff`: no effects, a value. -/
def effPure {α : Type} (a : α) : Eff α := ([], Except.ok a)

/-- `return RETURN_CODES[...]` inside `main`. -/
def exitWith (c : Nat) : Eff α := ([], Except.error (Outcome.exit c))

/-- Raise an uncaught Python exception. -/
def raiseExn (e : PyExn) : Eff α := ([], Except.error (Outcome.exn e))

/-- Record one effect. -/
def emit (e : Effect) : Eff Unit := ([e], Except.ok ())

/-- Lift pure Python code that may raise. -/
def liftE : Except PyExn α → Eff α
  | Except.ok a => ([], Except.ok a)
  | Except.error e => ([], Except.error (Outcome.exn e))

/-- Result of one `subprocess.run`: return code and (captured) stderr. -/
structure ProcResult where
  returncode : Int
  stderr : String
deriving DecidableEq

/-- Host facts, filesystem view and external collaborators.

`whichGit` stands for `_which("git")`: that search only performs
`os.path.exists` / `os.access` / `os.path.isdir` queries, so it is
read-only and safely abstracted as a value. `exeSuffix` stands for the
pure string computation of `_get_exe_part` on `sys.executable` /
`sys.prefix` (`commonpath` + `replace("python", app_name, 1)`): the
relative path of an executable named `app_name` inside the venv layout. -/
structure World where
  /-- `sys.platform` -/
  sysPlatform : String
  /-- `platform.python_version()` -/
  pythonVersion : String
  /-- `sys.executable` -/
  sysExecutable : String
  /-- paths for which `os.path.isdir` holds -/
  dirs : List String
  /-- paths for which `os.path.isfile` holds -/
  files : List String
  /-- `json.load` on the file at a path; `none` models a parse failure -/
  readJson : String → Option PyVal
  /-- result of the read-only `_which("git")` search -/
  whichGit : Option String
  /-- venv-relative executable path for an application name -/
  exeSuffix : String → String
  /-- the subprocess oracle: argv, cwd ↦ result -/
  run : List String → Option String → ProcResult

/-- `os.path.isdir` -/
def isdir (w : World) (p : String) : Bool := w.dirs.contains p

/-- `os.path.isfile` -/
def isfile (w : World) (p : String) : Bool := w.files.contains p

/-- `os.path.exists`: true for directories and regular files alike. -/
def pathExists (w : World) (p : String) : Bool :=
  w.dirs.contains p || w.files.contains p

/-- `os.path.join` for the relative, separator-free components the script
joins. -/
def pathJoin (a b : String) : String := a ++ "/" ++ b

/-- `subprocess.run(argv, cwd=cwd)`: record the invocation, ask the oracle. -/
def runP (w : World) (argv : List String) (cwd : Option String) : Eff ProcResult :=
  ([Effect.run argv cwd], Except.ok (w.run argv cwd))

/-! ## The script itself -/

/-- The `RETURN_CODES` table of the script, verbatim. -/
def RETURN_CODES : List (String × Nat) :=
  [("SETUP_DIR_INVALID", 1),
   ("PROVENANCE_FILE_INVALID", 2),
   ("DEFAULT_PYTHON_NOT_SET", 3),
   ("PLATFORM_MISMATCH", 4),
   ("GIT_EXECUTABLE_NOT_FOUND", 5),
   ("VIRTUALENV_SETUP_FAILED", 6),
   ("REQUIREMENTS_INSTALL_FAILED", 7),
   ("PLUGIN_CLONE_FAILED", 8),
   ("GIT_SWITCH_FAILED", 9),
   ("MAPCLIENT_USE_FAILED", 10)]

/-- `RETURN_CODES[key]`. -/
def retCode (k : String) : Nat := (RETURN_CODES.lookup k).getD 0

/-- The fixed sentinel `id` of a provenance record. -/
def provenanceSentinel : String := "map-client-provenance-record-report"

/-- The header check of `_is_map_client_provenance_file` on parsed content:
`"id" in content and content["id"] == sentinel and "version" in content`,
with Python's left-to-right short-circuiting. -/
def provCheck (v : PyVal) : Except PyExn Bool := do
  let hasId ← v.contains "id"
  if hasId then
    let idv ← v.getItem "id"
    if idv.eqStr provenanceSentinel then
      v.contains "version"
    else
      pure false
  else
    pure false

/-- `_is_map_client_provenance_file`: `False` for a non-file; otherwise
parse (a parse failure raises `json.JSONDecodeError`) and run the header
check. -/
def _is_map_client_provenance_file (w : World) (provenance_file : String) :
    Except PyExn Bool :=
  if isfile w provenance_file then
    match w.readJson provenance_file with
    | some v => provCheck v
    | none => Except.error PyExn.jsonDecodeError
  else
    Except.ok false

/-- `_map_client_requirements`: the single application pin. -/
def _map_client_requirements (info : PyVal) : Except PyExn (List String) := do
  let v ← info.getItem "version"
  pure ["mapclient == " ++ pyStr v]

/-- The loop body of `_package_requirements`: per package append
`"<name> == <version>"`, then warn (a print, never a failure) when the
recorded location is not `"PyPI"`. -/
def packageLoop : List (String × PyVal) → Eff (List String)
  | [] => effPure []
  | (p, pd) :: rest =>
    effBind (liftE (pd.getItem "version")) fun v =>
      effBind (liftE (pd.getItem "location")) fun loc =>
        effBind
          (if !(loc.eqStr "PyPI") then
            emit (Effect.msg ("Package: " ++ p ++ " is not installed from PyPI!"))
          else
            effPure ())
          fun _ =>
            effBind (packageLoop rest) fun r =>
              effPure ((p ++ " == " ++ pyStr v) :: r)

/-- `_package_requirements`. -/
def _package_requirements (info : PyVal) : Eff (List String) :=
  effBind (liftE info.items) packageLoop

/-- `_plugin_requirements`: the identity. -/
def _plugin_requirements (info : PyVal) : PyVal := info

/-- `_get_exe_part` (the `commonpath`/`replace` computation on the host
interpreter paths is the `World.exeSuffix` oracle). -/
def _get_exe_part (w : World) (base_dir name app_name : String) : String :=
  pathJoin (pathJoin base_dir name) (w.exeSuffix app_name)

/-- `_get_virtual_environment_pip` -/
def _get_virtual_environment_pip (w : World) (base_dir name : String) : String :=
  _get_exe_part w base_dir name "pip"

/-- `_get_virtual_environment_map_client_use` -/
def _get_virtual_environment_map_client_use (w : World) (base_dir name : String) : String :=
  _get_exe_part w base_dir name "mapclient_use"

/-- `_platform_match`: semantic-version equality of the host interpreter
version against the record, `and` (short-circuit) platform string equality. -/
def _platform_match (w : World) (info : PyVal) : Except PyExn Bool := do
  let hv ← pyVersion w.pythonVersion
  let vval ← info.getItem "version"
  let vs ← vval.asStr
  let iv ← pyVersion vs
  if versionEq hv iv then
    let pplat ← info.getItem "platform"
    pure (pplat.eqStr w.sysPlatform)
  else
    pure false

/-! ## `main` (lines 166–243), staged

`main` is split along its source structure: `gate` covers the side-effect
free validation prefix (lines 170–196: setup dir, provenance file, record
load, default-python resolution, platform gate, git location) and
`afterGate` the provisioning suffix (lines 198–243). The argparse front
end is out of scope; `setup_dir` and `provenance_file` arrive resolved. -/

/-- `venv_directory_name` (local constant of `main`). -/
def venv_directory_name : String := "venv_map_client"

/-- Re-open and re-parse the provenance file (lines 176–177). -/
def readContent (w : World) (provenance_file : String) : Eff PyVal :=
  match w.readJson provenance_file with
  | some v => ([], Except.ok v)
  | none => raiseExn PyExn.jsonDecodeError

/-- The built-in default interpreter spec for the legacy `0.1.0` schema:
the table has exactly the one darwin entry (lines 181–182). -/
def defaultDarwinPython : PyVal :=
  PyVal.vDict [("version", PyVal.vStr "3.11.11"), ("platform", PyVal.vStr "darwin")]

/-- Lines 180–187: resolve the expected interpreter spec. Under the legacy
`0.1.0` schema, use the default table (darwin only; otherwise print and
return code 3); under any other schema read the record's `python` field. -/
def resolvePythonInfo (w : World) (recVer v010 : List Nat) (software_info : PyVal) :
    Eff PyVal :=
  if versionEq recVer v010 then
    if w.sysPlatform == "darwin" then
      ([], Except.ok defaultDarwinPython)
    else
      effBind
        (emit (Effect.msg ("Default Python information not set for this platform (" ++
          w.sysPlatform ++ ").")))
        fun _ => exitWith (retCode "DEFAULT_PYTHON_NOT_SET")
  else
    liftE (software_info.getItem "python")

/-- Lines 190–192: the platform-mismatch report and exit. The f-string
reads `python_info['platform']` and `python_info['version']` (which may
itself raise) before printing. -/
def reportMismatch (w : World) (python_info : PyVal) : Eff Unit :=
  effBind (liftE (python_info.getItem "platform")) fun pp =>
    effBind (liftE (python_info.getItem "version")) fun pv =>
      effBind
        (emit (Effect.msg ("Script requires platform " ++ pyStr pp ++ " at version " ++
          pyStr pv ++ ", the current system has been detected as " ++ w.sysPlatform ++
          " at version " ++ w.pythonVersion ++ " which is not suitable.")))
        fun _ => exitWith (retCode "PLATFORM_MISMATCH")

/-- Lines 194–196: locate git or return code 5. -/
def locateGit (w : World) : Eff String :=
  match w.whichGit with
  | some g => ([], Except.ok g)
  | none => exitWith (retCode "GIT_EXECUTABLE_NOT_FOUND")

/-- Lines 170–196: the validation prefix of `main`, through the hard
compatibility gate and git location. Yields the record's `software_info`
and the resolved git executable. -/
def gate (w : World) (setup_dir provenance_file : String) : Eff (PyVal × String) :=
  effBind
    (if !(isdir w setup_dir) then exitWith (retCode "SETUP_DIR_INVALID") else effPure ())
    fun _ =>
  effBind (liftE (_is_map_client_provenance_file w provenance_file)) fun fileOk =>
  effBind
    (if !fileOk then exitWith (retCode "PROVENANCE_FILE_INVALID") else effPure ())
    fun _ =>
  effBind (readContent w provenance_file) fun content =>
  effBind (liftE (content.getItem "software_info")) fun software_info =>
  effBind (liftE (content.getItem "version")) fun vval =>
  effBind (liftE vval.asStr) fun vs =>
  effBind (liftE (pyVersion vs)) fun recVer =>
  effBind (liftE (pyVersion "0.1.0")) fun v010 =>
  effBind (resolvePythonInfo w recVer v010 software_info) fun python_info =>
  effBind (liftE (_platform_match w python_info)) fun pm =>
  effBind (if !pm then reportMismatch w python_info else effPure ()) fun _ =>
  effBind (locateGit w) fun git_exe =>
  effPure (software_info, git_exe)

/-- The single-quote character (for the git stderr text). -/
def squote : String := String.singleton (Char.ofNat 39)

/-- The exact stderr of `git switch -c` when the branch already exists,
the one failure line 231 tolerates. -/
def branchExistsMsg (ver : String) : String :=
  "fatal: a branch named " ++ squote ++ "v" ++ ver ++ squote ++ " already exists\n"

/-- Lines 221–233, one iteration of the plugin loop: reuse an existing
checkout (any filesystem entry of that name; the placeholder `echo`
subprocess stands for the reuse step) or shallow-clone onto branch
`v<version>`; fail with code 8 if that step's subprocess fails; then
`git switch -c v<version>` in the checkout, failing with code 9 unless
the failure is exactly "branch already exists". -/
def pluginStep (w : World) (git_exe plugin_dir p : String) (p_data : PyVal) :
    Eff Unit :=
  effBind
    (if pathExists w (pathJoin plugin_dir p) then
      runP w ["echo", pathJoin plugin_dir p] none
    else
      effBind (liftE (p_data.getItem "version")) fun ver =>
        effBind (liftE (p_data.getItem "location")) fun locv =>
          effBind (liftE locv.asStr) fun loc =>
            runP w [git_exe, "clone", "--depth", "1", "--branch", "v" ++ pyStr ver, loc, p]
              (some plugin_dir))
    fun cloneRes =>
  effBind
    (if cloneRes.returncode ≠ 0 then
      effBind (liftE (p_data.getItem "version")) fun ver =>
        effBind (emit (Effect.msg ("Failed to clone: " ++ p ++ " @ v" ++ pyStr ver ++ ".")))
          fun _ => exitWith (retCode "PLUGIN_CLONE_FAILED")
    else
      effPure ())
    fun _ =>
  effBind (liftE (p_data.getItem "version")) fun ver =>
  effBind (runP w [git_exe, "switch", "-c", "v" ++ pyStr ver] (some (pathJoin plugin_dir p)))
    fun switchRes =>
  if switchRes.returncode ≠ 0 && switchRes.stderr ≠ branchExistsMsg (pyStr ver) then
    effBind (emit (Effect.msg ("Failed to switch branch to v" ++ pyStr ver ++ ".")))
      fun _ => exitWith (retCode "GIT_SWITCH_FAILED")
  else
    effPure ()

/-- Lines 220–233: the strictly sequential plugin loop. -/
def syncPlugins (w : World) (git_exe plugin_dir : String) :
    List (String × PyVal) → Eff Unit
  | [] => effPure ()
  | (p, p_data) :: rest =>
    effBind (pluginStep w git_exe plugin_dir p p_data) fun _ =>
      syncPlugins w git_exe plugin_dir rest

/-- Lines 198–243: requirements assembly, venv creation, requirements
write and install, plugin synchronization, the temporary editable
install whose result is discarded (lines 235–236), and activation. -/
def afterGate (w : World) (setup_dir : String) (software_info : PyVal)
    (git_exe : String) : Eff Unit :=
  effBind (liftE (software_info.getItem "mapclient")) fun mc =>
  effBind (liftE (_map_client_requirements mc)) fun map_client_requirement =>
  effBind (liftE (software_info.getItem "packages")) fun pkgs =>
  effBind (_package_requirements pkgs) fun package_requirements =>
  effBind (liftE (software_info.getItem "plugins")) fun pluginsVal =>
  effBind (runP w [w.sysExecutable, "-m", "venv", venv_directory_name] (some setup_dir))
    fun r1 =>
  effBind
    (if r1.returncode ≠ 0 then exitWith (retCode "VIRTUALENV_SETUP_FAILED")
     else effPure ())
    fun _ =>
  effBind
    (emit (Effect.write (pathJoin setup_dir "requirements.txt")
      (String.intercalate "\n" (map_client_requirement ++ package_requirements))))
    fun _ =>
  effBind
    (runP w [_get_virtual_environment_pip w setup_dir venv_directory_name, "install",
      "-r", "requirements.txt"] (some setup_dir))
    fun r2 =>
  effBind
    (if r2.returncode ≠ 0 then exitWith (retCode "REQUIREMENTS_INSTALL_FAILED")
     else effPure ())
    fun _ =>
  effBind (emit (Effect.makedirs (pathJoin setup_dir "plugins"))) fun _ =>
  effBind (liftE (_plugin_requirements pluginsVal).items) fun items =>
  effBind (syncPlugins w git_exe (pathJoin setup_dir "plugins") items) fun _ =>
  effBind
    (runP w [_get_virtual_environment_pip w setup_dir venv_directory_name, "install",
      "-e", "/Users/hsor001/Projects/musculoskeletal/mapclient/src"] none)
    fun _ =>
  effBind
    (runP w [_get_virtual_environment_map_client_use w setup_dir venv_directory_name,
      setup_dir, "-d", pathJoin setup_dir "plugins"] none)
    fun r3 =>
  if r3.returncode ≠ 0 then exitWith (retCode "MAPCLIENT_USE_FAILED") else effPure ()

/-- `main`, staged body. -/
def mainE (w : World) (setup_dir provenance_file : String) : Eff Unit :=
  effBind (gate w setup_dir provenance_file) fun sg =>
    afterGate w setup_dir sg.1 sg.2

/-- `main`: the trace of effects, and either an exit code (0 success,
1–10 the enumerated failures) or an uncaught Python exception (Lean
reserves the name `main` for entry points, hence the prime). -/
def main' (w : World) (setup_dir provenance_file : String) :
    List Effect × Except PyExn Nat :=
  match mainE w setup_dir provenance_file with
  | (tr, Except.ok _) => (tr, Except.ok 0)
  | (tr, Except.error (Outcome.exit c)) => (tr, Except.ok c)
  | (tr, Except.error (Outcome.exn e)) => (tr, Except.error e)

/-! ## Auxiliary definitions for the theorems

Record templates (well-formed provenance sub-structures used to state the
claims), trace predicates, and the concrete worlds at which witnesses and
counterexamples are evaluated. -/

deriving instance DecidableEq for Except

/-- An interpreter spec `{"version": pv, "platform": pp}`. -/
def mkPython (pv pp : String) : PyVal :=
  PyVal.vDict [("version", PyVal.vStr pv), ("platform", PyVal.vStr pp)]

/-- The `mapclient` spec `{"version": mv}`. -/
def mkMapclient (mv : String) : PyVal :=
  PyVal.vDict [("version", PyVal.vStr mv)]

/-- A packages mapping from (name, version, location) triples. -/
def mkPkgs (l : List (String × String × String)) : PyVal :=
  PyVal.vDict (l.map fun t =>
    (t.1, PyVal.vDict [("version", PyVal.vStr t.2.1), ("location", PyVal.vStr t.2.2)]))

/-- A plugin spec `{"version": v, "location": loc}`. -/
def mkPlugin (v loc : String) : PyVal :=
  PyVal.vDict [("version", PyVal.vStr v), ("location", PyVal.vStr loc)]

/-- A plugins mapping from (name, version, location) triples. -/
def mkPlugins (l : List (String × String × String)) : PyVal :=
  PyVal.vDict (l.map fun t => (t.1, mkPlugin t.2.1 t.2.2))

/-- A `software_info` section. -/
def mkSoftwareInfo (python : PyVal) (mcVer : String) (pkgs plugs : PyVal) : PyVal :=
  PyVal.vDict
    [("python", python),
     ("mapclient", mkMapclient mcVer),
     ("packages", pkgs),
     ("plugins", plugs)]

/-- A well-formed top-level provenance record. -/
def mkRecord (schemaVer : String) (python : PyVal) (mcVer : String)
    (pkgs plugs : PyVal) : PyVal :=
  PyVal.vDict
    [("id", PyVal.vStr provenanceSentinel),
     ("version", PyVal.vStr schemaVer),
     ("software_info", mkSoftwareInfo python mcVer pkgs plugs)]

/-- The loader header condition on a parsed dict, as one boolean:
`id` maps to the sentinel string and a `version` key exists. -/
def headerOk (m : List (String × PyVal)) : Bool :=
  (match alist_lookup m "id" with
   | some v => v.eqStr provenanceSentinel
   | none => false) && (alist_lookup m "version").isSome

/-- Effects that touch nothing: printed diagnostics only. -/
def isMsg : Effect → Bool
  | Effect.msg _ => true
  | _ => false

/-- A subprocess-invocation effect whose second argv word is `clone`. -/
def isCloneCmd : Effect → Bool
  | Effect.run (_ :: "clone" :: _) _ => true
  | _ => false

/-- The requirement lines `_package_requirements` derives from
(name, version, location) triples. -/
def reqLines (l : List (String × String × String)) : List String :=
  l.map fun t => t.1 ++ " == " ++ t.2.1

/-- The advisory prints of `_package_requirements`: one per package not
sourced from PyPI. -/
def pkgWarnings (l : List (String × String × String)) : List Effect :=
  l.filterMap fun t =>
    if t.2.2 == "PyPI" then none
    else some (Effect.msg ("Package: " ++ t.1 ++ " is not installed from PyPI!"))

/-- `x` never terminates with an exit code outside `[lo, hi]`. -/
def ExitIn (lo hi : Nat) {α : Type} (x : Eff α) : Prop :=
  ∀ tr c, x = (tr, Except.error (Outcome.exit c)) → lo ≤ c ∧ c ≤ hi

/-- A one-file JSON oracle: `p` parses to `v`, everything else is absent. -/
def onlyAt (p : String) (v : PyVal) : String → Option PyVal :=
  fun q => if q == p then some v else none

/-- A subprocess oracle under which every invocation succeeds silently. -/
def zeroRun : List String → Option String → ProcResult :=
  fun _ _ => ProcResult.mk 0 ""

/-- World for the C2 witness: valid setup dir, no provenance file. -/
def c2MissingWorld : World :=
  World.mk "linux" "3.11.10" "/usr/bin/python3" ["/setup"] [] (fun _ => none) none
    (fun a => "bin/" ++ a) zeroRun

/-- World for the C2 counterexample: the provenance file exists but does
not parse. -/
def c2UnparseableWorld : World :=
  World.mk "linux" "3.11.10" "/usr/bin/python3" ["/setup"] ["/prov.json"]
    (fun _ => none) none (fun a => "bin/" ++ a) zeroRun

/-- Record for the C3 witness: expects interpreter 3.11.11 on darwin. -/
def c3Record : PyVal :=
  mkRecord "0.2.0" (mkPython "3.11.11" "darwin") "0.16.0" (mkPkgs []) (mkPlugins [])

/-- World for the C3 witness: a linux host running 3.11.10. -/
def c3World : World :=
  World.mk "linux" "3.11.10" "/usr/bin/python3" ["/setup"] ["/prov.json"]
    (onlyAt "/prov.json" c3Record) none (fun a => "bin/" ++ a) zeroRun

/-- Record for the C4 witness: legacy schema 0.1.0 (its `python` field,
present here as a placeholder, is never read). -/
def c4Record : PyVal :=
  mkRecord "0.1.0" (mkPython "ignored" "ignored") "0.16.0" (mkPkgs []) (mkPlugins [])

/-- World for the C4 witness: a non-darwin host with a legacy record. -/
def c4World : World :=
  World.mk "linux" "3.11.10" "/usr/bin/python3" ["/setup"] ["/prov.json"]
    (onlyAt "/prov.json" c4Record) none (fun a => "bin/" ++ a) zeroRun

/-- World for the C7 witness: no existing checkouts, all tools succeed. -/
def c7World : World :=
  World.mk "linux" "3.11.10" "/usr/bin/python3" ["/setup"] [] (fun _ => none)
    (some "/usr/bin/git") (fun a => "bin/" ++ a) zeroRun

/-- Subprocess oracle for the C8 witness: `git switch -c v2.0.0` fails with
the branch-already-exists diagnostic, everything else succeeds. -/
def c8Run : List String → Option String → ProcResult :=
  fun argv _ =>
    if argv = ["/usr/bin/git", "switch", "-c", "v2.0.0"] then
      ProcResult.mk 1 (branchExistsMsg "2.0.0")
    else
      ProcResult.mk 0 ""

/-- World for the C8 witness: the checkout `plugins/plugA` already exists
as a directory and the switch fails with "branch already exists". -/
def c8World : World :=
  World.mk "linux" "3.11.10" "/usr/bin/python3" ["/setup", "/setup/plugins/plugA"] []
    (fun _ => none) (some "/usr/bin/git") (fun a => "bin/" ++ a) c8Run

/-- World for the C10 witness: `plugins/plugA` exists as a regular file,
not a directory. -/
def c10World : World :=
  World.mk "linux" "3.11.10" "/usr/bin/python3" ["/setup"] ["/setup/plugins/plugA"]
    (fun _ => none) (some "/usr/bin/git") (fun a => "bin/" ++ a) zeroRun

/-- Record for the C6 witness: one PyPI package and one package from a
non-default location. -/
def c6Record : PyVal :=
  mkRecord "0.2.0" (mkPython "3.11.10" "linux") "0.16.0"
    (mkPkgs [("numpy", "1.26.4", "PyPI"), ("scipy", "1.11.0", "local-archive")])
    (mkPlugins [])

/-- World for the C6 witness: matching host, everything succeeds. -/
def c6World : World :=
  World.mk "linux" "3.11.10" "/usr/bin/python3" ["/setup"] ["/prov.json"]
    (onlyAt "/prov.json" c6Record) (some "/usr/bin/git") (fun a => "bin/" ++ a) zeroRun

/-- Record for the C9 witness: valid header, no `software_info` key. -/
def c9Record : PyVal :=
  PyVal.vDict [("id", PyVal.vStr provenanceSentinel), ("version", PyVal.vStr "0.2.0")]

/-- World for the C9 witness. -/
def c9World : World :=
  World.mk "linux" "3.11.10" "/usr/bin/python3" ["/setup"] ["/prov.json"]
    (onlyAt "/prov.json" c9Record) none (fun a => "bin/" ++ a) zeroRun

/-- Every effect in the trace of `x` is a printed message: nothing was
run, written, or created. -/
def TraceMsgs {α : Type} (x : Eff α) : Prop := ∀ e ∈ x.1, isMsg e = true

/-! ### The canonical C1 scenario

A fixed well-formed record (one PyPI package, two plugins) on a matching
host, with the subprocess oracle left fully symbolic: quantifying over
`run` quantifies over every possible combination of subprocess outcomes
after the compatibility gate. -/

def c1Record : PyVal :=
  mkRecord "0.2.0" (mkPython "3.11.10" "linux") "0.16.0"
    (mkPkgs [("numpy", "1.26.4", "PyPI")])
    (mkPlugins [("plugA", "1.0.0", "https://example.org/plugA.git"),
                ("plugB", "2.0.0", "https://example.org/plugB.git")])

def c1World (run : List String → Option String → ProcResult) : World :=
  World.mk "linux" "3.11.10" "/usr/bin/python3" ["/setup"] ["/prov.json"]
    (onlyAt "/prov.json" c1Record) (some "/usr/bin/git") (fun a => "bin/" ++ a) run

def c1venvCmd : List String := ["/usr/bin/python3", "-m", "venv", "venv_map_client"]
def c1pipCmd : List String :=
  ["/setup/venv_map_client/bin/pip", "install", "-r", "requirements.txt"]
def c1cloneA : List String :=
  ["/usr/bin/git", "clone", "--depth", "1", "--branch", "v1.0.0",
   "https://example.org/plugA.git", "plugA"]
def c1switchA : List String := ["/usr/bin/git", "switch", "-c", "v1.0.0"]
def c1cloneB : List String :=
  ["/usr/bin/git", "clone", "--depth", "1", "--branch", "v2.0.0",
   "https://example.org/plugB.git", "plugB"]
def c1switchB : List String := ["/usr/bin/git", "switch", "-c", "v2.0.0"]
def c1tempCmd : List String :=
  ["/setup/venv_map_client/bin/pip", "install", "-e",
   "/Users/hsor001/Projects/musculoskeletal/mapclient/src"]
def c1useCmd : List String :=
  ["/setup/venv_map_client/bin/mapclient_use", "/setup", "-d", "/setup/plugins"]

/-- Subprocess oracle for the C1 witness: environment creation fails,
everything else succeeds. -/
def c1FailVenvRun : List String → Option String → ProcResult :=
  fun argv _ =>
    if argv = c1venvCmd then ProcResult.mk 1 "" else ProcResult.mk 0 ""

/-- Subprocess oracle for the C1 counterexample: only the temporary
editable install (lines 235–236) fails; every checked stage succeeds. -/
def c1TempFailRun : List String → Option String → ProcResult :=
  fun argv _ =>
    if argv = c1tempCmd then ProcResult.mk 1 "error: no such directory" else ProcResult.mk 0 ""

/-! ## Reasoning infrastructure for `Eff` -/

@[simp] theorem effBind_err {α β : Type} (tr : List Effect) (e : Outcome)
    (f : α → Eff β) :
    effBind (tr, Except.error e) f = (tr, Except.error e) := rfl

@[simp] theorem effBind_ok {α β : Type} (tr : List Effect) (a : α) (f : α → Eff β) :
    effBind (tr, Except.ok a) f = (tr ++ (f a).1, (f a).2) := rfl


@[simp] theorem effPure_eq {α : Type} (a : α) : effPure a = (([], Except.ok a) : Eff α) := rfl

@[simp] theorem liftE_ok {α : Type} (a : α) : liftE (Except.ok a) = ([], Except.ok a) := rfl

@[simp] theorem liftE_err {α : Type} (e : PyExn) :
    (liftE (Except.error e) : Eff α) = ([], Except.error (Outcome.exn e)) := rfl

@[simp] theorem retCode_setup_dir_invalid : retCode "SETUP_DIR_INVALID" = 1 := rfl
@[simp] theorem retCode_provenance_file_invalid : retCode "PROVENANCE_FILE_INVALID" = 2 := rfl
@[simp] theorem retCode_default_python_not_set : retCode "DEFAULT_PYTHON_NOT_SET" = 3 := rfl
@[simp] theorem retCode_platform_mismatch : retCode "PLATFORM_MISMATCH" = 4 := rfl
@[simp] theorem retCode_git_executable_not_found : retCode "GIT_EXECUTABLE_NOT_FOUND" = 5 := rfl
@[simp] theorem retCode_virtualenv_setup_failed : retCode "VIRTUALENV_SETUP_FAILED" = 6 := rfl
@[simp] theorem retCode_requirements_install_failed : retCode "REQUIREMENTS_INSTALL_FAILED" = 7 := rfl
@[simp] theorem retCode_plugin_clone_failed : retCode "PLUGIN_CLONE_FAILED" = 8 := rfl
@[simp] theorem retCode_git_switch_failed : retCode "GIT_SWITCH_FAILED" = 9 := rfl
@[simp] theorem retCode_mapclient_use_failed : retCode "MAPCLIENT_USE_FAILED" = 10 := rfl

/-! ## Template evaluation lemmas -/

@[simp] theorem provCheck_mkRecord (sv : String) (py : PyVal) (mv : String)
    (pkgs plugs : PyVal) :
    provCheck (mkRecord sv py mv pkgs plugs) = Except.ok true := rfl

@[simp] theorem mkRecord_version (sv : String) (py : PyVal) (mv : String)
    (pkgs plugs : PyVal) :
    (mkRecord sv py mv pkgs plugs).getItem "version" = Except.ok (PyVal.vStr sv) := rfl

@[simp] theorem mkRecord_software_info (sv : String) (py : PyVal) (mv : String)
    (pkgs plugs : PyVal) :
    (mkRecord sv py mv pkgs plugs).getItem "software_info" =
      Except.ok (mkSoftwareInfo py mv pkgs plugs) := rfl

@[simp] theorem mkSoftwareInfo_python (py : PyVal) (mv : String) (pkgs plugs : PyVal) :
    (mkSoftwareInfo py mv pkgs plugs).getItem "python" = Except.ok py := rfl

@[simp] theorem mkSoftwareInfo_mapclient (py : PyVal) (mv : String) (pkgs plugs : PyVal) :
    (mkSoftwareInfo py mv pkgs plugs).getItem "mapclient" =
      Except.ok (mkMapclient mv) := rfl

@[simp] theorem mkSoftwareInfo_packages (py : PyVal) (mv : String) (pkgs plugs : PyVal) :
    (mkSoftwareInfo py mv pkgs plugs).getItem "packages" = Except.ok pkgs := rfl

@[simp] theorem mkSoftwareInfo_plugins (py : PyVal) (mv : String) (pkgs plugs : PyVal) :
    (mkSoftwareInfo py mv pkgs plugs).getItem "plugins" = Except.ok plugs := rfl

@[simp] theorem mkPython_version (pv pp : String) :
    (mkPython pv pp).getItem "version" = Except.ok (PyVal.vStr pv) := rfl

@[simp] theorem mkPython_platform (pv pp : String) :
    (mkPython pv pp).getItem "platform" = Except.ok (PyVal.vStr pp) := rfl

@[simp] theorem mkMapclient_version (mv : String) :
    (mkMapclient mv).getItem "version" = Except.ok (PyVal.vStr mv) := rfl

@[simp] theorem pyVersion_legacy : pyVersion "0.1.0" = Except.ok [0, 1, 0] := by decide

theorem pyVersion_31110 : pyVersion "3.11.10" = Except.ok [3, 11, 10] := by decide

theorem pyVersion_31111 : pyVersion "3.11.11" = Except.ok [3, 11, 11] := by decide

/-- The loader header check on any parsed dict, as one boolean. -/
theorem provCheck_dict (m : List (String × PyVal)) :
    provCheck (PyVal.vDict m) = Except.ok (headerOk m) := by
  cases h : alist_lookup m "id" with
  | none =>
    simp [provCheck, headerOk, PyVal.contains, PyVal.getItem, h, bind, Except.bind,
      pure, Except.pure]
  | some v =>
    cases hv : v.eqStr provenanceSentinel <;>
      simp [provCheck, headerOk, PyVal.contains, PyVal.getItem, h, hv, bind,
        Except.bind, pure, Except.pure]

/-! ## Claim C2 -/

/-- Claim C2 (amended): with a valid setup directory, `main` returns exit
code 2 (`PROVENANCE_FILE_INVALID`) whenever the provenance file is missing,
or parses to a dict that lacks an `id` equal to the sentinel or lacks a
`version` key. (An existing but unparseable file instead raises an uncaught
`JSONDecodeError` — see the counterexample.) -/
theorem c2_provenance_file_invalid_code2 (w : World) (s f : String)
    (h1 : isdir w s = true)
    (h : isfile w f = false ∨
      ∃ m, w.readJson f = some (PyVal.vDict m) ∧ headerOk m = false) :
    (main' w s f).2 = Except.ok 2 := by
  rcases h with h2 | ⟨m, h2, h3⟩
  · simp [main', mainE, gate, _is_map_client_provenance_file, h1, h2, exitWith]
  · cases hf : isfile w f
    · simp [main', mainE, gate, _is_map_client_provenance_file, h1, hf, exitWith]
    · simp [main', mainE, gate, _is_map_client_provenance_file, h1, hf, h2, h3,
        provCheck_dict, exitWith]

/-- Witness for C2: a missing provenance file under a valid setup
directory yields exit code 2. -/
theorem c2_provenance_file_invalid_code2_witness :
    (main' c2MissingWorld "/setup" "/prov.json").2 = Except.ok 2 :=
  c2_provenance_file_invalid_code2 c2MissingWorld "/setup" "/prov.json" (by decide)
    (Or.inl (by decide))

/-- Counterexample to C2 as stated: an existing but unparseable provenance
file makes `main` raise an uncaught `json.JSONDecodeError` (the process
dies with a traceback) instead of returning exit code 2. -/
theorem c2_unparseable_raises :
    (main' c2UnparseableWorld "/setup" "/prov.json").2 ≠ Except.ok 2 ∧
    (main' c2UnparseableWorld "/setup" "/prov.json").2 =
      Except.error PyExn.jsonDecodeError := by
  constructor
  · decide
  · rfl

/-! ## Claim C3 -/

/-- Claim C3: the compatibility check succeeds iff the expected interpreter
version equals the host's running version under semantic-version equality
AND the expected platform string equals the host platform; on any mismatch
`main` returns exit code 4 (`PLATFORM_MISMATCH`); and exact equality (not a
range) is enforced: expected `3.11.11` against host `3.11.10` fails. -/
theorem c3_platform_gate_exact_equality :
    (∀ (w : World) (iv ip : String) (hv ivr : List Nat),
       pyVersion w.pythonVersion = Except.ok hv →
       pyVersion iv = Except.ok ivr →
       _platform_match w (mkPython iv ip) =
         Except.ok (versionEq hv ivr && (ip == w.sysPlatform))) ∧
    (∀ (w : World) (s f sv mv pv pp : String) (svr : List Nat) (pkgs plugs : PyVal),
       isdir w s = true → isfile w f = true →
       w.readJson f = some (mkRecord sv (mkPython pv pp) mv pkgs plugs) →
       pyVersion sv = Except.ok svr →
       versionEq svr [0, 1, 0] = false →
       _platform_match w (mkPython pv pp) = Except.ok false →
       (main' w s f).2 = Except.ok 4) ∧
    (∀ (w : World) (pp : String), w.pythonVersion = "3.11.10" →
       _platform_match w (mkPython "3.11.11" pp) = Except.ok false) := by
  refine ⟨?_, ?_, ?_⟩
  · intro w iv ip hv ivr h1 h2
    cases hveq : versionEq hv ivr <;>
      simp [_platform_match, PyVal.asStr, PyVal.eqStr, h1, h2, hveq, bind,
        Except.bind, pure, Except.pure]
  · intro w s f sv mv pv pp svr pkgs plugs h1 h2 h3 h4 h5 h6
    simp [main', mainE, gate, _is_map_client_provenance_file, h1, h2, h3, h4, h5, h6,
      readContent, PyVal.asStr, resolvePythonInfo, reportMismatch, emit, exitWith,
      pyStr]
  · intro w pp h
    have hveq : versionEq [3, 11, 10] [3, 11, 11] = false := by decide
    cases hm : _platform_match w (mkPython "3.11.11" pp) with
    | error e =>
      rw [_platform_match] at hm
      simp [h, pyVersion_31110, pyVersion_31111, PyVal.asStr, hveq, bind, Except.bind,
        pure, Except.pure] at hm
    | ok b =>
      rw [_platform_match] at hm
      simp [h, pyVersion_31110, pyVersion_31111, PyVal.asStr, hveq, bind, Except.bind,
        pure, Except.pure] at hm
      rw [hm]

/-- Witness for C3: a record expecting 3.11.11/darwin against a linux host
at 3.11.10 exits with code 4. -/
theorem c3_platform_gate_exact_equality_witness :
    (main' c3World "/setup" "/prov.json").2 = Except.ok 4 :=
  c3_platform_gate_exact_equality.2.1 c3World "/setup" "/prov.json" "0.2.0" "0.16.0"
    "3.11.11" "darwin" [0, 2, 0] (mkPkgs []) (mkPlugins []) (by decide) (by decide)
    rfl (by decide) (by decide) (by decide)

/-! ## Claim C4 -/

/-- Claim C4: under a schema version semantically equal to `0.1.0`, the
expected interpreter spec comes from the fixed default table, whose single
entry is darwin ↦ (version 3.11.11, platform darwin); on any other host
platform the run exits with code 3 (`DEFAULT_PYTHON_NOT_SET`); for any
other schema version the spec is read from the record's `python` field. -/
theorem c4_legacy_default_python :
    (defaultDarwinPython = mkPython "3.11.11" "darwin") ∧
    (∀ (w : World) (recVer : List Nat) (si : PyVal),
       versionEq recVer [0, 1, 0] = true → w.sysPlatform = "darwin" →
       resolvePythonInfo w recVer [0, 1, 0] si = ([], Except.ok defaultDarwinPython)) ∧
    (∀ (w : World) (s f sv mv : String) (svr : List Nat) (python pkgs plugs : PyVal),
       isdir w s = true → isfile w f = true →
       w.readJson f = some (mkRecord sv python mv pkgs plugs) →
       pyVersion sv = Except.ok svr →
       versionEq svr [0, 1, 0] = true →
       w.sysPlatform ≠ "darwin" →
       (main' w s f).2 = Except.ok 3) ∧
    (∀ (w : World) (recVer : List Nat) (si : PyVal),
       versionEq recVer [0, 1, 0] = false →
       resolvePythonInfo w recVer [0, 1, 0] si = liftE (si.getItem "python")) := by
  refine ⟨rfl, ?_, ?_, ?_⟩
  · intro w recVer si h1 h2
    simp [resolvePythonInfo, h1, h2]
  · intro w s f sv mv svr python pkgs plugs h1 h2 h3 h4 h5 h6
    simp [main', mainE, gate, _is_map_client_provenance_file, h1, h2, h3, h4, h5, h6,
      readContent, PyVal.asStr, resolvePythonInfo, emit, exitWith]
  · intro w recVer si h1
    simp [resolvePythonInfo, h1]

/-- Witness for C4: a legacy (0.1.0) record on a linux host exits with
code 3. -/
theorem c4_legacy_default_python_witness :
    (main' c4World "/setup" "/prov.json").2 = Except.ok 3 :=
  c4_legacy_default_python.2.2.1 c4World "/setup" "/prov.json" "0.1.0" "0.16.0"
    [0, 1, 0] (mkPython "ignored" "ignored") (mkPkgs []) (mkPlugins []) (by decide)
    (by decide) rfl (by decide) (by decide) (by decide)

/-! ## Claims C7, C8, C10 — the plugin loop -/

@[simp] theorem mkPlugin_version (v loc : String) :
    (mkPlugin v loc).getItem "version" = Except.ok (PyVal.vStr v) := rfl

@[simp] theorem mkPlugin_location (v loc : String) :
    (mkPlugin v loc).getItem "location" = Except.ok (PyVal.vStr loc) := rfl

/-- Claim C7: for a plugin with version `V` and location `L` and no
existing checkout, the version-control client is invoked as
`clone --depth 1 --branch vV L <name>` with the plugins directory as
working directory, and (when the clone succeeds) the next invocation is
`switch -c vV` inside the new checkout — the branch name is exactly `v`
prepended to the recorded version in both commands. -/
theorem c7_clone_switch_branch_name (w : World) (git plugin_dir p V L : String)
    (h : pathExists w (pathJoin plugin_dir p) = false) :
    ((pluginStep w git plugin_dir p (mkPlugin V L)).1.take 1 =
       [Effect.run [git, "clone", "--depth", "1", "--branch", "v" ++ V, L, p]
         (some plugin_dir)]) ∧
    ((w.run [git, "clone", "--depth", "1", "--branch", "v" ++ V, L, p]
        (some plugin_dir)).returncode = 0 →
      (pluginStep w git plugin_dir p (mkPlugin V L)).1.take 2 =
        [Effect.run [git, "clone", "--depth", "1", "--branch", "v" ++ V, L, p]
          (some plugin_dir),
         Effect.run [git, "switch", "-c", "v" ++ V] (some (pathJoin plugin_dir p))]) := by
  constructor
  · by_cases hrc : (w.run [git, "clone", "--depth", "1", "--branch", "v" ++ V, L, p]
        (some plugin_dir)).returncode = 0 <;>
      simp [pluginStep, h, hrc, emit, exitWith, runP, pyStr, PyVal.asStr]
  · intro hrc
    simp [pluginStep, h, hrc, emit, exitWith, runP, pyStr, PyVal.asStr]

/-- Witness for C7: on a fresh world the first two subprocesses for plugin
`plugA` at version 2.0.0 are the exact clone and switch invocations. -/
theorem c7_clone_switch_branch_name_witness :
    (pluginStep c7World "/usr/bin/git" "/setup/plugins" "plugA"
        (mkPlugin "2.0.0" "https://example.org/plugA.git")).1.take 2 =
      [Effect.run ["/usr/bin/git", "clone", "--depth", "1", "--branch", "v2.0.0",
         "https://example.org/plugA.git", "plugA"] (some "/setup/plugins"),
       Effect.run ["/usr/bin/git", "switch", "-c", "v2.0.0"]
         (some (pathJoin "/setup/plugins" "plugA"))] :=
  (c7_clone_switch_branch_name c7World "/usr/bin/git" "/setup/plugins" "plugA"
    "2.0.0" "https://example.org/plugA.git" (by decide)).2 (by decide)

/-- Claim C8: with an existing checkout the step performs no clone (its
first subprocess is the reuse placeholder `echo`); a switch failure whose
stderr is exactly the branch-already-exists diagnostic is treated as
success and the loop continues with the remaining plugins; a switch
failure with any other stderr terminates with exit code 9 and no effect of
any later plugin; a successful switch also continues. -/
theorem c8_switch_already_exists_tolerated (w : World) (git plugin_dir p V L : String)
    (rest : List (String × PyVal))
    (h : pathExists w (pathJoin plugin_dir p) = true)
    (he : (w.run ["echo", pathJoin plugin_dir p] none).returncode = 0) :
    ((pluginStep w git plugin_dir p (mkPlugin V L)).1.take 1 =
       [Effect.run ["echo", pathJoin plugin_dir p] none]) ∧
    ((w.run [git, "switch", "-c", "v" ++ V]
        (some (pathJoin plugin_dir p))).returncode ≠ 0 →
     (w.run [git, "switch", "-c", "v" ++ V]
        (some (pathJoin plugin_dir p))).stderr = branchExistsMsg V →
     syncPlugins w git plugin_dir ((p, mkPlugin V L) :: rest) =
       ((pluginStep w git plugin_dir p (mkPlugin V L)).1 ++
          (syncPlugins w git plugin_dir rest).1,
        (syncPlugins w git plugin_dir rest).2)) ∧
    ((w.run [git, "switch", "-c", "v" ++ V]
        (some (pathJoin plugin_dir p))).returncode ≠ 0 →
     (w.run [git, "switch", "-c", "v" ++ V]
        (some (pathJoin plugin_dir p))).stderr ≠ branchExistsMsg V →
     syncPlugins w git plugin_dir ((p, mkPlugin V L) :: rest) =
       ((pluginStep w git plugin_dir p (mkPlugin V L)).1,
        Except.error (Outcome.exit 9))) ∧
    ((w.run [git, "switch", "-c", "v" ++ V]
        (some (pathJoin plugin_dir p))).returncode = 0 →
     syncPlugins w git plugin_dir ((p, mkPlugin V L) :: rest) =
       ((pluginStep w git plugin_dir p (mkPlugin V L)).1 ++
          (syncPlugins w git plugin_dir rest).1,
        (syncPlugins w git plugin_dir rest).2)) := by
  refine ⟨?_, ?_, ?_, ?_⟩
  · simp [pluginStep, h, he, emit, exitWith, runP, pyStr, PyVal.asStr]
  · intro hsw hst
    have hstep : (pluginStep w git plugin_dir p (mkPlugin V L)).2 = Except.ok () := by
      simp [pluginStep, h, he, hsw, hst, emit, exitWith, runP, pyStr, PyVal.asStr]
    simp [syncPlugins, effBind]
    rw [show (pluginStep w git plugin_dir p (mkPlugin V L)) =
      ((pluginStep w git plugin_dir p (mkPlugin V L)).1, Except.ok ()) from
      Prod.ext rfl hstep]
  · intro hsw hst
    have hstep : (pluginStep w git plugin_dir p (mkPlugin V L)).2 =
        Except.error (Outcome.exit 9) := by
      simp [pluginStep, h, he, hsw, hst, emit, exitWith, runP, pyStr, PyVal.asStr]
    simp [syncPlugins, effBind]
    rw [show (pluginStep w git plugin_dir p (mkPlugin V L)) =
      ((pluginStep w git plugin_dir p (mkPlugin V L)).1,
        Except.error (Outcome.exit 9)) from Prod.ext rfl hstep]
  · intro hsw
    have hstep : (pluginStep w git plugin_dir p (mkPlugin V L)).2 = Except.ok () := by
      simp [pluginStep, h, he, hsw, emit, exitWith, runP, pyStr, PyVal.asStr]
    simp [syncPlugins, effBind]
    rw [show (pluginStep w git plugin_dir p (mkPlugin V L)) =
      ((pluginStep w git plugin_dir p (mkPlugin V L)).1, Except.ok ()) from
      Prod.ext rfl hstep]

/-- Witness for C8: with `plugins/plugA` already present and the switch
failing with exactly the branch-already-exists stderr, the loop continues
(here: finishes successfully with no further plugins). -/
theorem c8_switch_already_exists_tolerated_witness :
    syncPlugins c8World "/usr/bin/git" "/setup/plugins"
        [("plugA", mkPlugin "2.0.0" "https://example.org/plugA.git")] =
      ((pluginStep c8World "/usr/bin/git" "/setup/plugins" "plugA"
          (mkPlugin "2.0.0" "https://example.org/plugA.git")).1 ++
         (syncPlugins c8World "/usr/bin/git" "/setup/plugins" []).1,
       (syncPlugins c8World "/usr/bin/git" "/setup/plugins" []).2) :=
  (c8_switch_already_exists_tolerated c8World "/usr/bin/git" "/setup/plugins" "plugA"
    "2.0.0" "https://example.org/plugA.git" [] (by decide) (by decide)).2.1
    (by decide) (by decide)

/-- Claim C10: the reuse short-circuit fires on any existing filesystem
entry named after the plugin, a regular file included: the step's first
subprocess is the `echo` placeholder (no clone), the second is the branch
switch with the existing path as working directory, and the complete trace
is one of the two clone-free shapes. -/
theorem c10_reuse_on_regular_file (w : World) (git plugin_dir p V L : String)
    (h : pathJoin plugin_dir p ∈ w.files)
    (he : (w.run ["echo", pathJoin plugin_dir p] none).returncode = 0) :
    ((pluginStep w git plugin_dir p (mkPlugin V L)).1.take 2 =
       [Effect.run ["echo", pathJoin plugin_dir p] none,
        Effect.run [git, "switch", "-c", "v" ++ V] (some (pathJoin plugin_dir p))]) ∧
    ((pluginStep w git plugin_dir p (mkPlugin V L)).1 =
       [Effect.run ["echo", pathJoin plugin_dir p] none,
        Effect.run [git, "switch", "-c", "v" ++ V] (some (pathJoin plugin_dir p))] ∨
     (pluginStep w git plugin_dir p (mkPlugin V L)).1 =
       [Effect.run ["echo", pathJoin plugin_dir p] none,
        Effect.run [git, "switch", "-c", "v" ++ V] (some (pathJoin plugin_dir p)),
        Effect.msg ("Failed to switch branch to v" ++ V ++ ".")]) := by
  have hex : pathExists w (pathJoin plugin_dir p) = true := by
    simp [pathExists, h]
  by_cases hsw : (w.run [git, "switch", "-c", "v" ++ V]
      (some (pathJoin plugin_dir p))).returncode = 0
  · refine ⟨?_, Or.inl ?_⟩ <;>
      simp [pluginStep, hex, he, hsw, emit, exitWith, runP, pyStr, PyVal.asStr]
  · by_cases hst : (w.run [git, "switch", "-c", "v" ++ V]
        (some (pathJoin plugin_dir p))).stderr = branchExistsMsg V
    · refine ⟨?_, Or.inl ?_⟩ <;>
        simp [pluginStep, hex, he, hsw, hst, emit, exitWith, runP, pyStr, PyVal.asStr]
    · refine ⟨?_, Or.inr ?_⟩ <;>
        simp [pluginStep, hex, he, hsw, hst, emit, exitWith, runP, pyStr, PyVal.asStr]

/-- Witness for C10: with `plugins/plugA` existing as a regular file the
step runs `echo` then the switch, never a clone. -/
theorem c10_reuse_on_regular_file_witness :
    (pluginStep c10World "/usr/bin/git" "/setup/plugins" "plugA"
        (mkPlugin "2.0.0" "https://example.org/plugA.git")).1.take 2 =
      [Effect.run ["echo", pathJoin "/setup/plugins" "plugA"] none,
       Effect.run ["/usr/bin/git", "switch", "-c", "v2.0.0"]
         (some (pathJoin "/setup/plugins" "plugA"))] :=
  (c10_reuse_on_regular_file c10World "/usr/bin/git" "/setup/plugins" "plugA"
    "2.0.0" "https://example.org/plugA.git" (by decide) (by decide)).1

/-! ## Claim C6 -/

/-- The trace of `main` is the trace of its staged body (the final match
only converts the outcome). -/
theorem main'_fst (w : World) (s f : String) : (main' w s f).1 = (mainE w s f).1 := by
  unfold main'
  rcases mainE w s f with ⟨tr, r⟩
  cases r with
  | ok a => rfl
  | error e => cases e <;> rfl

/-- `_package_requirements` on a well-formed package mapping: one
`"<name> == <version>"` line per package in mapping order — packages from
any location included — one advisory print per non-PyPI package, and no
failure outcome. -/
theorem packageLoop_mk (l : List (String × String × String)) :
    packageLoop (l.map fun t =>
        (t.1, PyVal.vDict [("version", PyVal.vStr t.2.1), ("location", PyVal.vStr t.2.2)])) =
      (pkgWarnings l, Except.ok (reqLines l)) := by
  induction l with
  | nil => rfl
  | cons t l ih =>
    by_cases hloc : t.2.2 = "PyPI" <;>
      simp [packageLoop, pkgWarnings, reqLines, emit, ih, hloc, PyVal.eqStr,
        PyVal.getItem, alist_lookup, pyStr, liftE, List.filterMap_cons]

theorem package_requirements_mk (l : List (String × String × String)) :
    _package_requirements (mkPkgs l) = (pkgWarnings l, Except.ok (reqLines l)) := by
  simp [_package_requirements, mkPkgs, PyVal.items, packageLoop_mk, liftE]

/-- Claim C6: the `requirements.txt` artifact written into the setup
directory is the newline-joined list with the application pin
`mapclient == <recorded version>` first, followed by one
`<name> == <version>` line per recorded package in mapping order; and
`_package_requirements` includes every package regardless of its recorded
location, printing a warning for non-PyPI locations and never failing by
itself. -/
theorem c6_requirements_content :
    (∀ l : List (String × String × String),
       _package_requirements (mkPkgs l) = (pkgWarnings l, Except.ok (reqLines l))) ∧
    (∀ (w : World) (s f sv mv pv pp g : String)
       (pkgs : List (String × String × String)) (svr : List Nat),
       isdir w s = true → isfile w f = true →
       w.readJson f =
         some (mkRecord sv (mkPython pv pp) mv (mkPkgs pkgs) (mkPlugins [])) →
       pyVersion sv = Except.ok svr →
       versionEq svr [0, 1, 0] = false →
       _platform_match w (mkPython pv pp) = Except.ok true →
       w.whichGit = some g →
       (w.run [w.sysExecutable, "-m", "venv", venv_directory_name]
           (some s)).returncode = 0 →
       Effect.write (pathJoin s "requirements.txt")
           (String.intercalate "\n" (("mapclient == " ++ mv) :: reqLines pkgs)) ∈
         (main' w s f).1) := by
  refine ⟨package_requirements_mk, ?_⟩
  intro w s f sv mv pv pp g pkgs svr h1 h2 h3 h4 h5 h6 h7 h8
  rw [main'_fst]
  simp [mainE, gate, afterGate, _is_map_client_provenance_file, readContent,
    h1, h2, h3, h4, h5, h6, h7, h8, PyVal.asStr, resolvePythonInfo, locateGit,
    _map_client_requirements, package_requirements_mk, _plugin_requirements,
    _get_virtual_environment_pip, _get_virtual_environment_map_client_use,
    _get_exe_part, emit, exitWith, runP, pyStr, mkPlugins, PyVal.items, syncPlugins]

/-- Witness for C6: with one PyPI and one non-PyPI package the written
artifact is `mapclient == 0.16.0`, `numpy == 1.26.4`, `scipy == 1.11.0`
joined by newlines, non-PyPI package included. -/
theorem c6_requirements_content_witness :
    Effect.write (pathJoin "/setup" "requirements.txt")
        (String.intercalate "\n"
          (("mapclient == " ++ "0.16.0") ::
            reqLines [("numpy", "1.26.4", "PyPI"), ("scipy", "1.11.0", "local-archive")])) ∈
      (main' c6World "/setup" "/prov.json").1 :=
  c6_requirements_content.2 c6World "/setup" "/prov.json" "0.2.0" "0.16.0" "3.11.10"
    "linux" "/usr/bin/git" [("numpy", "1.26.4", "PyPI"), ("scipy", "1.11.0", "local-archive")]
    [0, 2, 0] (by decide) (by decide) rfl (by decide) (by decide) (by decide) rfl
    (by decide)

/-! ## Claim C9 -/

/-- Claim C9: a record that passes the loader's header check (sentinel `id`
and a `version` key) but lacks `software_info`, or whose `software_info`
lacks `python` (under a non-legacy schema), `mapclient`, or `packages`, or
one of whose package entries lacks `version` or `location`, makes `main`
raise an uncaught `KeyError` — an exception outcome, not exit code 0 nor
any of the ten enumerated failure codes. (Each case is stated at the
point in the pipeline where that key is first read; the later cases
therefore assume the earlier stages pass.) -/
theorem c9_missing_keys_raise_keyerror :
    (∀ (w : World) (s f sv : String),
       isdir w s = true → isfile w f = true →
       w.readJson f = some (PyVal.vDict
         [("id", PyVal.vStr provenanceSentinel), ("version", PyVal.vStr sv)]) →
       (main' w s f).2 = Except.error (PyExn.keyError "software_info")) ∧
    (∀ (w : World) (s f sv mv : String) (svr : List Nat) (pkgs plugs : PyVal),
       isdir w s = true → isfile w f = true →
       w.readJson f = some (PyVal.vDict
         [("id", PyVal.vStr provenanceSentinel), ("version", PyVal.vStr sv),
          ("software_info", PyVal.vDict
            [("mapclient", mkMapclient mv), ("packages", pkgs), ("plugins", plugs)])]) →
       pyVersion sv = Except.ok svr →
       versionEq svr [0, 1, 0] = false →
       (main' w s f).2 = Except.error (PyExn.keyError "python")) ∧
    (∀ (w : World) (s f sv pv pp g : String) (svr : List Nat) (pkgs plugs : PyVal),
       isdir w s = true → isfile w f = true →
       w.readJson f = some (PyVal.vDict
         [("id", PyVal.vStr provenanceSentinel), ("version", PyVal.vStr sv),
          ("software_info", PyVal.vDict
            [("python", mkPython pv pp), ("packages", pkgs), ("plugins", plugs)])]) →
       pyVersion sv = Except.ok svr →
       versionEq svr [0, 1, 0] = false →
       _platform_match w (mkPython pv pp) = Except.ok true →
       w.whichGit = some g →
       (main' w s f).2 = Except.error (PyExn.keyError "mapclient")) ∧
    (∀ (w : World) (s f sv pv pp mv g : String) (svr : List Nat) (plugs : PyVal),
       isdir w s = true → isfile w f = true →
       w.readJson f = some (PyVal.vDict
         [("id", PyVal.vStr provenanceSentinel), ("version", PyVal.vStr sv),
          ("software_info", PyVal.vDict
            [("python", mkPython pv pp), ("mapclient", mkMapclient mv),
             ("plugins", plugs)])]) →
       pyVersion sv = Except.ok svr →
       versionEq svr [0, 1, 0] = false →
       _platform_match w (mkPython pv pp) = Except.ok true →
       w.whichGit = some g →
       (main' w s f).2 = Except.error (PyExn.keyError "packages")) ∧
    (∀ (w : World) (s f sv pv pp mv g pn : String) (svr : List Nat) (plugs : PyVal),
       isdir w s = true → isfile w f = true →
       w.readJson f = some (PyVal.vDict
         [("id", PyVal.vStr provenanceSentinel), ("version", PyVal.vStr sv),
          ("software_info", PyVal.vDict
            [("python", mkPython pv pp), ("mapclient", mkMapclient mv),
             ("packages", PyVal.vDict [(pn, PyVal.vDict [])]), ("plugins", plugs)])]) →
       pyVersion sv = Except.ok svr →
       versionEq svr [0, 1, 0] = false →
       _platform_match w (mkPython pv pp) = Except.ok true →
       w.whichGit = some g →
       (main' w s f).2 = Except.error (PyExn.keyError "version")) ∧
    (∀ (w : World) (s f sv pv pp mv g pn ver : String) (svr : List Nat) (plugs : PyVal),
       isdir w s = true → isfile w f = true →
       w.readJson f = some (PyVal.vDict
         [("id", PyVal.vStr provenanceSentinel), ("version", PyVal.vStr sv),
          ("software_info", PyVal.vDict
            [("python", mkPython pv pp), ("mapclient", mkMapclient mv),
             ("packages", PyVal.vDict [(pn, PyVal.vDict [("version", PyVal.vStr ver)])]),
             ("plugins", plugs)])]) →
       pyVersion sv = Except.ok svr →
       versionEq svr [0, 1, 0] = false →
       _platform_match w (mkPython pv pp) = Except.ok true →
       w.whichGit = some g →
       (main' w s f).2 = Except.error (PyExn.keyError "location")) := by
  refine ⟨?_, ?_, ?_, ?_, ?_, ?_⟩
  · intro w s f sv h1 h2 h3
    simp [main', mainE, gate, _is_map_client_provenance_file, readContent, h1, h2, h3,
      provCheck, PyVal.contains, PyVal.getItem, alist_lookup, PyVal.eqStr, liftE,
      bind, Except.bind, pure, Except.pure]
  · intro w s f sv mv svr pkgs plugs h1 h2 h3 h4 h5
    simp [main', mainE, gate, _is_map_client_provenance_file, readContent, h1, h2, h3,
      h4, h5, resolvePythonInfo, PyVal.asStr, provCheck, PyVal.contains, PyVal.getItem,
      alist_lookup, PyVal.eqStr, liftE, bind, Except.bind, pure, Except.pure]
  · intro w s f sv pv pp g svr pkgs plugs h1 h2 h3 h4 h5 h6 h7
    simp [main', mainE, gate, afterGate, _is_map_client_provenance_file, readContent,
      h1, h2, h3, h4, h5, h6, h7, resolvePythonInfo, locateGit, PyVal.asStr, provCheck,
      PyVal.contains, PyVal.getItem, alist_lookup, PyVal.eqStr, liftE,
      bind, Except.bind, pure, Except.pure]
  · intro w s f sv pv pp mv g svr plugs h1 h2 h3 h4 h5 h6 h7
    simp [main', mainE, gate, afterGate, _is_map_client_provenance_file, readContent,
      h1, h2, h3, h4, h5, h6, h7, resolvePythonInfo, locateGit, PyVal.asStr, provCheck,
      PyVal.contains, PyVal.getItem, alist_lookup, PyVal.eqStr, liftE, mkMapclient,
      _map_client_requirements, pyStr, bind, Except.bind, pure, Except.pure]
  · intro w s f sv pv pp mv g pn svr plugs h1 h2 h3 h4 h5 h6 h7
    simp [main', mainE, gate, afterGate, _is_map_client_provenance_file, readContent,
      h1, h2, h3, h4, h5, h6, h7, resolvePythonInfo, locateGit, PyVal.asStr, provCheck,
      PyVal.contains, PyVal.eqStr, mkMapclient,
      _map_client_requirements, _package_requirements, packageLoop, PyVal.items,
      PyVal.getItem, alist_lookup, liftE, pyStr, bind, Except.bind, pure, Except.pure]
  · intro w s f sv pv pp mv g pn ver svr plugs h1 h2 h3 h4 h5 h6 h7
    simp [main', mainE, gate, afterGate, _is_map_client_provenance_file, readContent,
      h1, h2, h3, h4, h5, h6, h7, resolvePythonInfo, locateGit, PyVal.asStr, provCheck,
      PyVal.contains, PyVal.eqStr, mkMapclient,
      _map_client_requirements, _package_requirements, packageLoop, PyVal.items,
      PyVal.getItem, alist_lookup, liftE, pyStr, bind, Except.bind, pure, Except.pure]

/-- Witness for C9: a header-valid record with no `software_info` key makes
the run die with `KeyError: software_info`. -/
theorem c9_missing_keys_raise_keyerror_witness :
    (main' c9World "/setup" "/prov.json").2 =
      Except.error (PyExn.keyError "software_info") :=
  c9_missing_keys_raise_keyerror.1 c9World "/setup" "/prov.json" "0.2.0" (by decide)
    (by decide) rfl

/-! ## Exit-code ranges and read-only traces, by stage -/

theorem Eff_eq_parts {α : Type} {tr tr' : List Effect} {r r' : Except Outcome α}
    (h : ((tr, r) : Eff α) = (tr', r')) : tr = tr' ∧ r = r' :=
  ⟨congrArg (fun q : Eff α => q.1) h, congrArg (fun q : Eff α => q.2) h⟩

theorem exitIn_bind {lo hi : Nat} {α β : Type} {x : Eff α} {f : α → Eff β}
    (hx : ExitIn lo hi x) (hf : ∀ a, ExitIn lo hi (f a)) : ExitIn lo hi (effBind x f) := by
  rcases x with ⟨trx, rx⟩
  cases rx with
  | error e =>
    intro tr c h
    simp only [effBind_err] at h
    obtain ⟨h1, h2⟩ := Eff_eq_parts h
    injection h2 with h3
    exact hx trx c (by rw [h3])
  | ok a =>
    intro tr c h
    simp only [effBind_ok] at h
    obtain ⟨h1, h2⟩ := Eff_eq_parts h
    exact hf a (f a).1 c (Prod.ext rfl h2)

theorem exitIn_liftE {lo hi : Nat} {α : Type} (e : Except PyExn α) :
    ExitIn lo hi (liftE e) := by
  intro tr c h
  cases e with
  | ok a => exact Except.noConfusion (Eff_eq_parts h).2
  | error ex =>
    obtain ⟨h1, h2⟩ := Eff_eq_parts h
    injection h2 with h3
    exact Outcome.noConfusion h3

theorem exitIn_pure {lo hi : Nat} {α : Type} (a : α) :
    ExitIn lo hi (effPure a : Eff α) := fun _ _ h =>
  Except.noConfusion (Eff_eq_parts h).2

theorem exitIn_emit {lo hi : Nat} (e : Effect) : ExitIn lo hi (emit e) := fun _ _ h =>
  Except.noConfusion (Eff_eq_parts h).2

theorem exitIn_runP {lo hi : Nat} (w : World) (argv : List String)
    (cwd : Option String) : ExitIn lo hi (runP w argv cwd) := fun _ _ h =>
  Except.noConfusion (Eff_eq_parts h).2

theorem exitIn_exitWith (c : Nat) {lo hi : Nat} {α : Type} (h1 : lo ≤ c) (h2 : c ≤ hi) :
    ExitIn lo hi (exitWith c : Eff α) := by
  intro tr c' h
  obtain ⟨ha, hb⟩ := Eff_eq_parts h
  injection hb with hc
  injection hc with hd
  omega

theorem exitIn_raise {lo hi : Nat} {α : Type} (e : PyExn) :
    ExitIn lo hi (raiseExn e : Eff α) := by
  intro tr c h
  obtain ⟨h1, h2⟩ := Eff_eq_parts h
  injection h2 with h3
  exact Outcome.noConfusion h3

theorem exitIn_ite {lo hi : Nat} {α : Type} (c : Prop) [Decidable c] {x y : Eff α}
    (hx : ExitIn lo hi x) (hy : ExitIn lo hi y) : ExitIn lo hi (if c then x else y) := by
  split <;> assumption

theorem exitIn_iteB {lo hi : Nat} {α : Type} (c : Bool) {x y : Eff α}
    (hx : ExitIn lo hi x) (hy : ExitIn lo hi y) :
    ExitIn lo hi (if c = true then x else y) := by
  split <;> assumption

theorem pluginStep_exitIn (w : World) (git_exe plugin_dir p : String) (p_data : PyVal) :
    ExitIn 6 10 (pluginStep w git_exe plugin_dir p p_data) := by
  unfold pluginStep
  refine exitIn_bind ?_ fun cloneRes => ?_
  · refine exitIn_ite _ (exitIn_runP _ _ _) ?_
    refine exitIn_bind (exitIn_liftE _) fun _ => ?_
    refine exitIn_bind (exitIn_liftE _) fun _ => ?_
    refine exitIn_bind (exitIn_liftE _) fun _ => ?_
    exact exitIn_runP _ _ _
  · refine exitIn_bind ?_ fun _ => ?_
    · refine exitIn_ite _ ?_ (exitIn_pure _)
      refine exitIn_bind (exitIn_liftE _) fun _ => ?_
      refine exitIn_bind (exitIn_emit _) fun _ => ?_
      exact exitIn_exitWith 8 (by omega) (by omega)
    · refine exitIn_bind (exitIn_liftE _) fun _ => ?_
      refine exitIn_bind (exitIn_runP _ _ _) fun switchRes => ?_
      refine exitIn_ite _ ?_ (exitIn_pure _)
      refine exitIn_bind (exitIn_emit _) fun _ => ?_
      exact exitIn_exitWith 9 (by omega) (by omega)

theorem syncPlugins_exitIn (w : World) (git_exe plugin_dir : String)
    (l : List (String × PyVal)) :
    ExitIn 6 10 (syncPlugins w git_exe plugin_dir l) := by
  induction l with
  | nil => exact exitIn_pure _
  | cons hd tl ih =>
    rcases hd with ⟨p, pd⟩
    unfold syncPlugins
    exact exitIn_bind (pluginStep_exitIn w git_exe plugin_dir p pd) fun _ => ih

theorem packageLoop_exitIn (lo hi : Nat) (l : List (String × PyVal)) :
    ExitIn lo hi (packageLoop l) := by
  induction l with
  | nil => exact exitIn_pure _
  | cons hd tl ih =>
    rcases hd with ⟨p, pd⟩
    unfold packageLoop
    refine exitIn_bind (exitIn_liftE _) fun _ => ?_
    refine exitIn_bind (exitIn_liftE _) fun _ => ?_
    refine exitIn_bind (exitIn_ite _ (exitIn_emit _) (exitIn_pure _)) fun _ => ?_
    exact exitIn_bind ih fun _ => exitIn_pure _

theorem afterGate_exitIn (w : World) (setup_dir : String) (software_info : PyVal)
    (git_exe : String) : ExitIn 6 10 (afterGate w setup_dir software_info git_exe) := by
  unfold afterGate
  refine exitIn_bind (exitIn_liftE _) fun mc => ?_
  refine exitIn_bind (exitIn_liftE _) fun mcr => ?_
  refine exitIn_bind (exitIn_liftE _) fun pkgs => ?_
  refine exitIn_bind (exitIn_bind (exitIn_liftE _) fun l => packageLoop_exitIn _ _ l)
    fun pkgreq => ?_
  refine exitIn_bind (exitIn_liftE _) fun pluginsVal => ?_
  refine exitIn_bind (exitIn_runP _ _ _) fun r1 => ?_
  refine exitIn_bind
    (exitIn_ite _ (exitIn_exitWith 6 (by omega) (by omega)) (exitIn_pure _))
    fun _ => ?_
  refine exitIn_bind (exitIn_emit _) fun _ => ?_
  refine exitIn_bind (exitIn_runP _ _ _) fun r2 => ?_
  refine exitIn_bind
    (exitIn_ite _ (exitIn_exitWith 7 (by omega) (by omega)) (exitIn_pure _))
    fun _ => ?_
  refine exitIn_bind (exitIn_emit _) fun _ => ?_
  refine exitIn_bind (exitIn_liftE _) fun items => ?_
  refine exitIn_bind (syncPlugins_exitIn _ _ _ _) fun _ => ?_
  refine exitIn_bind (exitIn_runP _ _ _) fun _ => ?_
  refine exitIn_bind (exitIn_runP _ _ _) fun r3 => ?_
  exact exitIn_ite _ (exitIn_exitWith 10 (by omega) (by omega)) (exitIn_pure _)

theorem traceMsgs_bind {α β : Type} {x : Eff α} {f : α → Eff β}
    (hx : TraceMsgs x) (hf : ∀ a, TraceMsgs (f a)) : TraceMsgs (effBind x f) := by
  rcases x with ⟨trx, rx⟩
  cases rx with
  | error e =>
    intro e' he
    simp only [effBind_err] at he
    exact hx e' he
  | ok a =>
    intro e' he
    simp only [effBind_ok] at he
    rcases List.mem_append.mp he with h | h
    · exact hx e' h
    · exact hf a e' h

theorem traceMsgs_nil {α : Type} (r : Except Outcome α) :
    TraceMsgs (([], r) : Eff α) := by
  intro e he
  simp at he

theorem traceMsgs_pure {α : Type} (a : α) : TraceMsgs (effPure a) :=
  traceMsgs_nil _

theorem traceMsgs_liftE {α : Type} (ex : Except PyExn α) : TraceMsgs (liftE ex) := by
  cases ex <;> exact traceMsgs_nil _

theorem traceMsgs_exitWith {α : Type} (c : Nat) : TraceMsgs (exitWith c : Eff α) :=
  traceMsgs_nil _

theorem traceMsgs_raise {α : Type} (e : PyExn) : TraceMsgs (raiseExn e : Eff α) :=
  traceMsgs_nil _

theorem traceMsgs_msg (m : String) : TraceMsgs (emit (Effect.msg m)) := by
  intro e he
  simp [emit] at he
  simp [he, isMsg]

theorem traceMsgs_ite {α : Type} (c : Prop) [Decidable c] {x y : Eff α}
    (hx : TraceMsgs x) (hy : TraceMsgs y) : TraceMsgs (if c then x else y) := by
  split <;> assumption

theorem traceMsgs_readContent (w : World) (pf : String) :
    TraceMsgs (readContent w pf) := by
  unfold readContent
  cases w.readJson pf
  · exact traceMsgs_raise _
  · exact traceMsgs_nil _

theorem traceMsgs_resolvePython (w : World) (rv v010 : List Nat) (si : PyVal) :
    TraceMsgs (resolvePythonInfo w rv v010 si) := by
  unfold resolvePythonInfo
  refine traceMsgs_ite _ ?_ (traceMsgs_liftE _)
  refine traceMsgs_ite _ (traceMsgs_nil _) ?_
  exact traceMsgs_bind (traceMsgs_msg _) fun _ => traceMsgs_exitWith _

theorem traceMsgs_reportMismatch (w : World) (python_info : PyVal) :
    TraceMsgs (reportMismatch w python_info) := by
  unfold reportMismatch
  refine traceMsgs_bind (traceMsgs_liftE _) fun pp => ?_
  refine traceMsgs_bind (traceMsgs_liftE _) fun pv => ?_
  exact traceMsgs_bind (traceMsgs_msg _) fun _ => traceMsgs_exitWith _

theorem traceMsgs_locateGit (w : World) : TraceMsgs (locateGit w) := by
  unfold locateGit
  cases w.whichGit
  · exact traceMsgs_exitWith _
  · exact traceMsgs_nil _

theorem gate_traceMsgs (w : World) (s f : String) : TraceMsgs (gate w s f) := by
  unfold gate
  refine traceMsgs_bind
    (traceMsgs_ite _ (traceMsgs_exitWith _) (traceMsgs_pure _)) fun _ => ?_
  refine traceMsgs_bind (traceMsgs_liftE _) fun fileOk => ?_
  refine traceMsgs_bind
    (traceMsgs_ite _ (traceMsgs_exitWith _) (traceMsgs_pure _)) fun _ => ?_
  refine traceMsgs_bind (traceMsgs_readContent _ _) fun content => ?_
  refine traceMsgs_bind (traceMsgs_liftE _) fun software_info => ?_
  refine traceMsgs_bind (traceMsgs_liftE _) fun vval => ?_
  refine traceMsgs_bind (traceMsgs_liftE _) fun vs => ?_
  refine traceMsgs_bind (traceMsgs_liftE _) fun recVer => ?_
  refine traceMsgs_bind (traceMsgs_liftE _) fun v010 => ?_
  refine traceMsgs_bind (traceMsgs_resolvePython _ _ _ _) fun python_info => ?_
  refine traceMsgs_bind (traceMsgs_liftE _) fun pm => ?_
  refine traceMsgs_bind
    (traceMsgs_ite _ (traceMsgs_reportMismatch _ _) (traceMsgs_pure _)) fun _ => ?_
  refine traceMsgs_bind (traceMsgs_locateGit _) fun g => ?_
  exact traceMsgs_pure _

theorem main'_eq_of_mainE_exit (w : World) (s f : String) (tr : List Effect) (c : Nat)
    (h : mainE w s f = (tr, Except.error (Outcome.exit c))) :
    main' w s f = (tr, Except.ok c) := by
  unfold main'
  rw [h]

theorem main'_eq_of_mainE_exn (w : World) (s f : String) (tr : List Effect) (ex : PyExn)
    (h : mainE w s f = (tr, Except.error (Outcome.exn ex))) :
    main' w s f = (tr, Except.error ex) := by
  unfold main'
  rw [h]

theorem main'_eq_of_mainE_ok (w : World) (s f : String) (tr : List Effect) (a : Unit)
    (h : mainE w s f = (tr, Except.ok a)) :
    main' w s f = (tr, Except.ok 0) := by
  unfold main'
  rw [h]

/-! ## Claim C5 -/

/-- Claim C5: whenever `main` returns one of the exit codes 1 through 5
(setup dir invalid, provenance invalid, default interpreter unset,
platform mismatch, git not found), the whole effect trace consists of
printed messages only — no subprocess has run, no file was written, no
directory was created: the setup directory, `requirements.txt`, the
environment directory and the plugins directory are untouched. -/
theorem c5_early_codes_read_only (w : World) (s f : String) (c : Nat)
    (hc : (main' w s f).2 = Except.ok c) (hlo : 1 ≤ c) (hhi : c ≤ 5) :
    ∀ e ∈ (main' w s f).1, isMsg e = true := by
  rcases hg : gate w s f with ⟨trg, rg⟩
  cases rg with
  | error o =>
    cases o with
    | exn ex =>
      have hme : mainE w s f = (trg, Except.error (Outcome.exn ex)) := by
        unfold mainE
        rw [hg]
        rfl
      rw [main'_eq_of_mainE_exn w s f trg ex hme] at hc
      exact absurd hc (by simp)
    | exit c' =>
      have hme : mainE w s f = (trg, Except.error (Outcome.exit c')) := by
        unfold mainE
        rw [hg]
        rfl
      rw [main'_eq_of_mainE_exit w s f trg c' hme]
      intro e he
      have hgt := gate_traceMsgs w s f
      rw [hg] at hgt
      exact hgt e he
  | ok sg =>
    rcases ha : afterGate w s sg.1 sg.2 with ⟨tra, ra⟩
    have hme : mainE w s f = (trg ++ tra, ra) := by
      unfold mainE
      rw [hg]
      simp only [effBind_ok]
      rw [ha]
    cases ra with
    | ok a =>
      rw [main'_eq_of_mainE_ok w s f _ a hme] at hc
      simp at hc
      omega
    | error o =>
      cases o with
      | exn ex =>
        rw [main'_eq_of_mainE_exn w s f _ ex hme] at hc
        exact absurd hc (by simp)
      | exit c'' =>
        rw [main'_eq_of_mainE_exit w s f _ c'' hme] at hc
        simp at hc
        have hrange := afterGate_exitIn w s sg.1 sg.2 tra c'' ha
        omega

/-- Witness for C5: the code-3 run of the C4 world touches nothing — its
whole trace passes the message-only filter. -/
theorem c5_early_codes_read_only_witness :
    List.all (main' c4World "/setup" "/prov.json").1 isMsg = true := by
  have h := c5_early_codes_read_only c4World "/setup" "/prov.json" 3 (by decide)
    (by decide) (by decide)
  exact List.all_eq_true.mpr h

/-! ## Claim C1 -/

theorem c1_venv_fail_code6 (run : List String → Option String → ProcResult)
    (h1 : (run c1venvCmd (some "/setup")).returncode ≠ 0) :
    (main' (c1World run) "/setup" "/prov.json").2 = Except.ok 6 := by
  simp only [c1venvCmd] at h1
  have hD : isdir (c1World run) "/setup" = true := rfl
  have hF : isfile (c1World run) "/prov.json" = true := rfl
  have hJ : (c1World run).readJson "/prov.json" = some c1Record := rfl
  have hG : (c1World run).whichGit = some "/usr/bin/git" := rfl
  have hpm : _platform_match (c1World run) (mkPython "3.11.10" "linux") =
      Except.ok true := rfl
  have hv : pyVersion "0.2.0" = Except.ok [0, 2, 0] := by decide
  have hveq : versionEq [0, 2, 0] [0, 1, 0] = false := by decide
  have hrun : ∀ argv cwd, (c1World run).run argv cwd = run argv cwd := fun _ _ => rfl
  have hsys : (c1World run).sysExecutable = "/usr/bin/python3" := rfl
  have e1 : _get_virtual_environment_pip (c1World run) "/setup" "venv_map_client" =
      "/setup/venv_map_client/bin/pip" := rfl
  have e2 :
      _get_virtual_environment_map_client_use (c1World run) "/setup" "venv_map_client" =
      "/setup/venv_map_client/bin/mapclient_use" := rfl
  have e3 : pathJoin "/setup" "plugins" = "/setup/plugins" := rfl
  have e4 : pathJoin "/setup/plugins" "plugA" = "/setup/plugins/plugA" := rfl
  have e5 : pathJoin "/setup/plugins" "plugB" = "/setup/plugins/plugB" := rfl
  have hpA : pathExists (c1World run) "/setup/plugins/plugA" = false := rfl
  have hpB : pathExists (c1World run) "/setup/plugins/plugB" = false := rfl
  have hvA : "v" ++ "1.0.0" = "v1.0.0" := rfl
  have hvB : "v" ++ "2.0.0" = "v2.0.0" := rfl
  simp [main', mainE, gate, afterGate, syncPlugins, pluginStep, _is_map_client_provenance_file,
    readContent, hD, hF, hJ, hG, hpm, hv, hveq, hrun, hsys, e1, e2, e3, e4, e5, hpA, hpB,
    hvA, hvB, c1Record, resolvePythonInfo, locateGit, _map_client_requirements,
    package_requirements_mk, _plugin_requirements, mkPlugins, PyVal.items, pkgWarnings,
    reqLines, emit, exitWith, runP, pyStr, PyVal.asStr, venv_directory_name, h1]

theorem c1_pip_fail_code7 (run : List String → Option String → ProcResult)
    (h1 : (run c1venvCmd (some "/setup")).returncode = 0)
    (h2 : (run c1pipCmd (some "/setup")).returncode ≠ 0) :
    (main' (c1World run) "/setup" "/prov.json").2 = Except.ok 7 := by
  simp only [c1venvCmd] at h1
  simp only [c1pipCmd] at h2
  have hD : isdir (c1World run) "/setup" = true := rfl
  have hF : isfile (c1World run) "/prov.json" = true := rfl
  have hJ : (c1World run).readJson "/prov.json" = some c1Record := rfl
  have hG : (c1World run).whichGit = some "/usr/bin/git" := rfl
  have hpm : _platform_match (c1World run) (mkPython "3.11.10" "linux") =
      Except.ok true := rfl
  have hv : pyVersion "0.2.0" = Except.ok [0, 2, 0] := by decide
  have hveq : versionEq [0, 2, 0] [0, 1, 0] = false := by decide
  have hrun : ∀ argv cwd, (c1World run).run argv cwd = run argv cwd := fun _ _ => rfl
  have hsys : (c1World run).sysExecutable = "/usr/bin/python3" := rfl
  have e1 : _get_virtual_environment_pip (c1World run) "/setup" "venv_map_client" =
      "/setup/venv_map_client/bin/pip" := rfl
  have e2 :
      _get_virtual_environment_map_client_use (c1World run) "/setup" "venv_map_client" =
      "/setup/venv_map_client/bin/mapclient_use" := rfl
  have e3 : pathJoin "/setup" "plugins" = "/setup/plugins" := rfl
  have e4 : pathJoin "/setup/plugins" "plugA" = "/setup/plugins/plugA" := rfl
  have e5 : pathJoin "/setup/plugins" "plugB" = "/setup/plugins/plugB" := rfl
  have hpA : pathExists (c1World run) "/setup/plugins/plugA" = false := rfl
  have hpB : pathExists (c1World run) "/setup/plugins/plugB" = false := rfl
  have hvA : "v" ++ "1.0.0" = "v1.0.0" := rfl
  have hvB : "v" ++ "2.0.0" = "v2.0.0" := rfl
  simp [main', mainE, gate, afterGate, syncPlugins, pluginStep, _is_map_client_provenance_file,
    readContent, hD, hF, hJ, hG, hpm, hv, hveq, hrun, hsys, e1, e2, e3, e4, e5, hpA, hpB,
    hvA, hvB, c1Record, resolvePythonInfo, locateGit, _map_client_requirements,
    package_requirements_mk, _plugin_requirements, mkPlugins, PyVal.items, pkgWarnings,
    reqLines, emit, exitWith, runP, pyStr, PyVal.asStr, venv_directory_name, h1, h2]

theorem c1_clone_fail_code8 (run : List String → Option String → ProcResult)
    (h1 : (run c1venvCmd (some "/setup")).returncode = 0)
    (h2 : (run c1pipCmd (some "/setup")).returncode = 0)
    (h3 : (run c1cloneA (some "/setup/plugins")).returncode ≠ 0) :
    (main' (c1World run) "/setup" "/prov.json").2 = Except.ok 8 ∧
    Effect.run c1cloneB (some "/setup/plugins") ∉
      (main' (c1World run) "/setup" "/prov.json").1 := by
  simp only [c1venvCmd] at h1
  simp only [c1pipCmd] at h2
  simp only [c1cloneA] at h3
  have hD : isdir (c1World run) "/setup" = true := rfl
  have hF : isfile (c1World run) "/prov.json" = true := rfl
  have hJ : (c1World run).readJson "/prov.json" = some c1Record := rfl
  have hG : (c1World run).whichGit = some "/usr/bin/git" := rfl
  have hpm : _platform_match (c1World run) (mkPython "3.11.10" "linux") =
      Except.ok true := rfl
  have hv : pyVersion "0.2.0" = Except.ok [0, 2, 0] := by decide
  have hveq : versionEq [0, 2, 0] [0, 1, 0] = false := by decide
  have hrun : ∀ argv cwd, (c1World run).run argv cwd = run argv cwd := fun _ _ => rfl
  have hsys : (c1World run).sysExecutable = "/usr/bin/python3" := rfl
  have e1 : _get_virtual_environment_pip (c1World run) "/setup" "venv_map_client" =
      "/setup/venv_map_client/bin/pip" := rfl
  have e2 :
      _get_virtual_environment_map_client_use (c1World run) "/setup" "venv_map_client" =
      "/setup/venv_map_client/bin/mapclient_use" := rfl
  have e3 : pathJoin "/setup" "plugins" = "/setup/plugins" := rfl
  have e4 : pathJoin "/setup/plugins" "plugA" = "/setup/plugins/plugA" := rfl
  have e5 : pathJoin "/setup/plugins" "plugB" = "/setup/plugins/plugB" := rfl
  have hpA : pathExists (c1World run) "/setup/plugins/plugA" = false := rfl
  have hpB : pathExists (c1World run) "/setup/plugins/plugB" = false := rfl
  have hvA : "v" ++ "1.0.0" = "v1.0.0" := rfl
  have hvB : "v" ++ "2.0.0" = "v2.0.0" := rfl
  constructor
  · simp [main', mainE, gate, afterGate, syncPlugins, pluginStep, _is_map_client_provenance_file,
    readContent, hD, hF, hJ, hG, hpm, hv, hveq, hrun, hsys, e1, e2, e3, e4, e5, hpA, hpB,
    hvA, hvB, c1Record, resolvePythonInfo, locateGit, _map_client_requirements,
    package_requirements_mk, _plugin_requirements, mkPlugins, PyVal.items, pkgWarnings,
    reqLines, emit, exitWith, runP, pyStr, PyVal.asStr, venv_directory_name, h1, h2, h3]
  · rw [main'_fst]
    simp [main', mainE, gate, afterGate, syncPlugins, pluginStep, _is_map_client_provenance_file,
    readContent, hD, hF, hJ, hG, hpm, hv, hveq, hrun, hsys, e1, e2, e3, e4, e5, hpA, hpB,
    hvA, hvB, c1Record, resolvePythonInfo, locateGit, _map_client_requirements,
    package_requirements_mk, _plugin_requirements, mkPlugins, PyVal.items, pkgWarnings,
    reqLines, emit, exitWith, runP, pyStr, PyVal.asStr, venv_directory_name, h1, h2, h3, c1cloneB]

theorem c1_switch_fail_code9 (run : List String → Option String → ProcResult)
    (h1 : (run c1venvCmd (some "/setup")).returncode = 0)
    (h2 : (run c1pipCmd (some "/setup")).returncode = 0)
    (h3 : (run c1cloneA (some "/setup/plugins")).returncode = 0)
    (h4 : (run c1switchA (some "/setup/plugins/plugA")).returncode ≠ 0)
    (h5 : (run c1switchA (some "/setup/plugins/plugA")).stderr ≠ branchExistsMsg "1.0.0") :
    (main' (c1World run) "/setup" "/prov.json").2 = Except.ok 9 ∧
    Effect.run c1cloneB (some "/setup/plugins") ∉
      (main' (c1World run) "/setup" "/prov.json").1 := by
  simp only [c1venvCmd] at h1
  simp only [c1pipCmd] at h2
  simp only [c1cloneA] at h3
  simp only [c1switchA] at h4 h5
  have hD : isdir (c1World run) "/setup" = true := rfl
  have hF : isfile (c1World run) "/prov.json" = true := rfl
  have hJ : (c1World run).readJson "/prov.json" = some c1Record := rfl
  have hG : (c1World run).whichGit = some "/usr/bin/git" := rfl
  have hpm : _platform_match (c1World run) (mkPython "3.11.10" "linux") =
      Except.ok true := rfl
  have hv : pyVersion "0.2.0" = Except.ok [0, 2, 0] := by decide
  have hveq : versionEq [0, 2, 0] [0, 1, 0] = false := by decide
  have hrun : ∀ argv cwd, (c1World run).run argv cwd = run argv cwd := fun _ _ => rfl
  have hsys : (c1World run).sysExecutable = "/usr/bin/python3" := rfl
  have e1 : _get_virtual_environment_pip (c1World run) "/setup" "venv_map_client" =
      "/setup/venv_map_client/bin/pip" := rfl
  have e2 :
      _get_virtual_environment_map_client_use (c1World run) "/setup" "venv_map_client" =
      "/setup/venv_map_client/bin/mapclient_use" := rfl
  have e3 : pathJoin "/setup" "plugins" = "/setup/plugins" := rfl
  have e4 : pathJoin "/setup/plugins" "plugA" = "/setup/plugins/plugA" := rfl
  have e5 : pathJoin "/setup/plugins" "plugB" = "/setup/plugins/plugB" := rfl
  have hpA : pathExists (c1World run) "/setup/plugins/plugA" = false := rfl
  have hpB : pathExists (c1World run) "/setup/plugins/plugB" = false := rfl
  have hvA : "v" ++ "1.0.0" = "v1.0.0" := rfl
  have hvB : "v" ++ "2.0.0" = "v2.0.0" := rfl
  constructor
  · simp [main', mainE, gate, afterGate, syncPlugins, pluginStep, _is_map_client_provenance_file,
    readContent, hD, hF, hJ, hG, hpm, hv, hveq, hrun, hsys, e1, e2, e3, e4, e5, hpA, hpB,
    hvA, hvB, c1Record, resolvePythonInfo, locateGit, _map_client_requirements,
    package_requirements_mk, _plugin_requirements, mkPlugins, PyVal.items, pkgWarnings,
    reqLines, emit, exitWith, runP, pyStr, PyVal.asStr, venv_directory_name, h1, h1, h2, h3, h4, h5]
  · rw [main'_fst]
    simp [main', mainE, gate, afterGate, syncPlugins, pluginStep, _is_map_client_provenance_file,
    readContent, hD, hF, hJ, hG, hpm, hv, hveq, hrun, hsys, e1, e2, e3, e4, e5, hpA, hpB,
    hvA, hvB, c1Record, resolvePythonInfo, locateGit, _map_client_requirements,
    package_requirements_mk, _plugin_requirements, mkPlugins, PyVal.items, pkgWarnings,
    reqLines, emit, exitWith, runP, pyStr, PyVal.asStr, venv_directory_name, h1, h1, h2, h3, h4, h5, c1cloneB]

theorem c1_use_fail_code10 (run : List String → Option String → ProcResult)
    (h1 : (run c1venvCmd (some "/setup")).returncode = 0)
    (h2 : (run c1pipCmd (some "/setup")).returncode = 0)
    (h3 : (run c1cloneA (some "/setup/plugins")).returncode = 0)
    (h4 : (run c1switchA (some "/setup/plugins/plugA")).returncode = 0)
    (h5 : (run c1cloneB (some "/setup/plugins")).returncode = 0)
    (h6 : (run c1switchB (some "/setup/plugins/plugB")).returncode = 0)
    (h7 : (run c1useCmd none).returncode ≠ 0) :
    (main' (c1World run) "/setup" "/prov.json").2 = Except.ok 10 := by
  simp only [c1venvCmd] at h1
  simp only [c1pipCmd] at h2
  simp only [c1cloneA] at h3
  simp only [c1switchA] at h4
  simp only [c1cloneB] at h5
  simp only [c1switchB] at h6
  simp only [c1useCmd] at h7
  have hD : isdir (c1World run) "/setup" = true := rfl
  have hF : isfile (c1World run) "/prov.json" = true := rfl
  have hJ : (c1World run).readJson "/prov.json" = some c1Record := rfl
  have hG : (c1World run).whichGit = some "/usr/bin/git" := rfl
  have hpm : _platform_match (c1World run) (mkPython "3.11.10" "linux") =
      Except.ok true := rfl
  have hv : pyVersion "0.2.0" = Except.ok [0, 2, 0] := by decide
  have hveq : versionEq [0, 2, 0] [0, 1, 0] = false := by decide
  have hrun : ∀ argv cwd, (c1World run).run argv cwd = run argv cwd := fun _ _ => rfl
  have hsys : (c1World run).sysExecutable = "/usr/bin/python3" := rfl
  have e1 : _get_virtual_environment_pip (c1World run) "/setup" "venv_map_client" =
      "/setup/venv_map_client/bin/pip" := rfl
  have e2 :
      _get_virtual_environment_map_client_use (c1World run) "/setup" "venv_map_client" =
      "/setup/venv_map_client/bin/mapclient_use" := rfl
  have e3 : pathJoin "/setup" "plugins" = "/setup/plugins" := rfl
  have e4 : pathJoin "/setup/plugins" "plugA" = "/setup/plugins/plugA" := rfl
  have e5 : pathJoin "/setup/plugins" "plugB" = "/setup/plugins/plugB" := rfl
  have hpA : pathExists (c1World run) "/setup/plugins/plugA" = false := rfl
  have hpB : pathExists (c1World run) "/setup/plugins/plugB" = false := rfl
  have hvA : "v" ++ "1.0.0" = "v1.0.0" := rfl
  have hvB : "v" ++ "2.0.0" = "v2.0.0" := rfl
  simp [main', mainE, gate, afterGate, syncPlugins, pluginStep, _is_map_client_provenance_file,
    readContent, hD, hF, hJ, hG, hpm, hv, hveq, hrun, hsys, e1, e2, e3, e4, e5, hpA, hpB,
    hvA, hvB, c1Record, resolvePythonInfo, locateGit, _map_client_requirements,
    package_requirements_mk, _plugin_requirements, mkPlugins, PyVal.items, pkgWarnings,
    reqLines, emit, exitWith, runP, pyStr, PyVal.asStr, venv_directory_name, h1, h1, h2, h3, h4, h5, h6, h7]

theorem c1_all_ok_code0 (run : List String → Option String → ProcResult)
    (h1 : (run c1venvCmd (some "/setup")).returncode = 0)
    (h2 : (run c1pipCmd (some "/setup")).returncode = 0)
    (h3 : (run c1cloneA (some "/setup/plugins")).returncode = 0)
    (h4 : (run c1switchA (some "/setup/plugins/plugA")).returncode = 0)
    (h5 : (run c1cloneB (some "/setup/plugins")).returncode = 0)
    (h6 : (run c1switchB (some "/setup/plugins/plugB")).returncode = 0)
    (h7 : (run c1useCmd none).returncode = 0) :
    (main' (c1World run) "/setup" "/prov.json").2 = Except.ok 0 ∧
    Effect.run c1tempCmd none ∈ (main' (c1World run) "/setup" "/prov.json").1 := by
  simp only [c1venvCmd] at h1
  simp only [c1pipCmd] at h2
  simp only [c1cloneA] at h3
  simp only [c1switchA] at h4
  simp only [c1cloneB] at h5
  simp only [c1switchB] at h6
  simp only [c1useCmd] at h7
  have hD : isdir (c1World run) "/setup" = true := rfl
  have hF : isfile (c1World run) "/prov.json" = true := rfl
  have hJ : (c1World run).readJson "/prov.json" = some c1Record := rfl
  have hG : (c1World run).whichGit = some "/usr/bin/git" := rfl
  have hpm : _platform_match (c1World run) (mkPython "3.11.10" "linux") =
      Except.ok true := rfl
  have hv : pyVersion "0.2.0" = Except.ok [0, 2, 0] := by decide
  have hveq : versionEq [0, 2, 0] [0, 1, 0] = false := by decide
  have hrun : ∀ argv cwd, (c1World run).run argv cwd = run argv cwd := fun _ _ => rfl
  have hsys : (c1World run).sysExecutable = "/usr/bin/python3" := rfl
  have e1 : _get_virtual_environment_pip (c1World run) "/setup" "venv_map_client" =
      "/setup/venv_map_client/bin/pip" := rfl
  have e2 :
      _get_virtual_environment_map_client_use (c1World run) "/setup" "venv_map_client" =
      "/setup/venv_map_client/bin/mapclient_use" := rfl
  have e3 : pathJoin "/setup" "plugins" = "/setup/plugins" := rfl
  have e4 : pathJoin "/setup/plugins" "plugA" = "/setup/plugins/plugA" := rfl
  have e5 : pathJoin "/setup/plugins" "plugB" = "/setup/plugins/plugB" := rfl
  have hpA : pathExists (c1World run) "/setup/plugins/plugA" = false := rfl
  have hpB : pathExists (c1World run) "/setup/plugins/plugB" = false := rfl
  have hvA : "v" ++ "1.0.0" = "v1.0.0" := rfl
  have hvB : "v" ++ "2.0.0" = "v2.0.0" := rfl
  constructor
  · simp [main', mainE, gate, afterGate, syncPlugins, pluginStep, _is_map_client_provenance_file,
    readContent, hD, hF, hJ, hG, hpm, hv, hveq, hrun, hsys, e1, e2, e3, e4, e5, hpA, hpB,
    hvA, hvB, c1Record, resolvePythonInfo, locateGit, _map_client_requirements,
    package_requirements_mk, _plugin_requirements, mkPlugins, PyVal.items, pkgWarnings,
    reqLines, emit, exitWith, runP, pyStr, PyVal.asStr, venv_directory_name, h1, h1, h2, h3, h4, h5, h6, h7]
  · rw [main'_fst]
    simp [main', mainE, gate, afterGate, syncPlugins, pluginStep, _is_map_client_provenance_file,
    readContent, hD, hF, hJ, hG, hpm, hv, hveq, hrun, hsys, e1, e2, e3, e4, e5, hpA, hpB,
    hvA, hvB, c1Record, resolvePythonInfo, locateGit, _map_client_requirements,
    package_requirements_mk, _plugin_requirements, mkPlugins, PyVal.items, pkgWarnings,
    reqLines, emit, exitWith, runP, pyStr, PyVal.asStr, venv_directory_name, h1, h1, h2, h3, h4, h5, h6, h7, c1tempCmd]

/-- Claim C1 (amended): in the canonical post-gate scenario, for every
combination of subprocess outcomes (`run` is universally quantified), a
non-zero exit status of the environment-creation, requirements-install,
plugin clone, branch-switch (with a non-"branch already exists" stderr)
or activation subprocess is propagated immediately as that stage's
terminal code (6, 7, 8, 9, 10 respectively), a failure on the first
plugin terminates the run before the second plugin's clone is attempted,
and when those stages all succeed the run returns 0. The amendment: the
temporary editable pip install of lines 235–236 is exempt — its argv is
never constrained by any of these conclusions, because its exit status is
discarded (see the counterexample). -/
theorem c1_subprocess_failure_propagation
    (run : List String → Option String → ProcResult) :
    ((run c1venvCmd (some "/setup")).returncode ≠ 0 →
       (main' (c1World run) "/setup" "/prov.json").2 = Except.ok 6) ∧
    ((run c1venvCmd (some "/setup")).returncode = 0 →
     (run c1pipCmd (some "/setup")).returncode ≠ 0 →
       (main' (c1World run) "/setup" "/prov.json").2 = Except.ok 7) ∧
    ((run c1venvCmd (some "/setup")).returncode = 0 →
     (run c1pipCmd (some "/setup")).returncode = 0 →
     (run c1cloneA (some "/setup/plugins")).returncode ≠ 0 →
       (main' (c1World run) "/setup" "/prov.json").2 = Except.ok 8 ∧
       Effect.run c1cloneB (some "/setup/plugins") ∉
         (main' (c1World run) "/setup" "/prov.json").1) ∧
    ((run c1venvCmd (some "/setup")).returncode = 0 →
     (run c1pipCmd (some "/setup")).returncode = 0 →
     (run c1cloneA (some "/setup/plugins")).returncode = 0 →
     (run c1switchA (some "/setup/plugins/plugA")).returncode ≠ 0 →
     (run c1switchA (some "/setup/plugins/plugA")).stderr ≠ branchExistsMsg "1.0.0" →
       (main' (c1World run) "/setup" "/prov.json").2 = Except.ok 9 ∧
       Effect.run c1cloneB (some "/setup/plugins") ∉
         (main' (c1World run) "/setup" "/prov.json").1) ∧
    ((run c1venvCmd (some "/setup")).returncode = 0 →
     (run c1pipCmd (some "/setup")).returncode = 0 →
     (run c1cloneA (some "/setup/plugins")).returncode = 0 →
     (run c1switchA (some "/setup/plugins/plugA")).returncode = 0 →
     (run c1cloneB (some "/setup/plugins")).returncode = 0 →
     (run c1switchB (some "/setup/plugins/plugB")).returncode = 0 →
     (run c1useCmd none).returncode ≠ 0 →
       (main' (c1World run) "/setup" "/prov.json").2 = Except.ok 10) ∧
    ((run c1venvCmd (some "/setup")).returncode = 0 →
     (run c1pipCmd (some "/setup")).returncode = 0 →
     (run c1cloneA (some "/setup/plugins")).returncode = 0 →
     (run c1switchA (some "/setup/plugins/plugA")).returncode = 0 →
     (run c1cloneB (some "/setup/plugins")).returncode = 0 →
     (run c1switchB (some "/setup/plugins/plugB")).returncode = 0 →
     (run c1useCmd none).returncode = 0 →
       (main' (c1World run) "/setup" "/prov.json").2 = Except.ok 0 ∧
       Effect.run c1tempCmd none ∈ (main' (c1World run) "/setup" "/prov.json").1) :=
  ⟨c1_venv_fail_code6 run,
   c1_pip_fail_code7 run,
   c1_clone_fail_code8 run,
   c1_switch_fail_code9 run,
   c1_use_fail_code10 run,
   c1_all_ok_code0 run⟩

/-- Witness for C1: when only environment creation fails, the run exits
with code 6. -/
theorem c1_subprocess_failure_propagation_witness :
    (main' (c1World c1FailVenvRun) "/setup" "/prov.json").2 = Except.ok 6 :=
  (c1_subprocess_failure_propagation c1FailVenvRun).1 (by decide)

/-- Counterexample to C1 as stated ("no subprocess failure is swallowed
except branch-already-exists"): with every checked stage succeeding and
only the temporary editable install (lines 235–236) failing, `main`
still returns 0 — that subprocess ran, failed, and its failure was
swallowed. -/
theorem c1_temp_install_failure_swallowed :
    (main' (c1World c1TempFailRun) "/setup" "/prov.json").2 = Except.ok 0 ∧
    Effect.run c1tempCmd none ∈ (main' (c1World c1TempFailRun) "/setup" "/prov.json").1 ∧
    (c1TempFailRun c1tempCmd none).returncode ≠ 0 := by
  refine ⟨by decide, by decide, by decide⟩
